import Mathlib

/-!
Verification of the ape-dts streaming core against its specification.

Each section is a shallow embedding of one Rust source file of the
repository, followed by theorems settling the specification claims about
that code.  Rust `String` is embedded as Lean `String` (or `List Char`
where the Rust code works on a `Vec<char>`), machine integers as `Nat`/`Int`
(no claim here depends on overflow), `Result`/`Option` as `Option`/`Except`,
and `&mut self` methods as functions returning the updated value.
-/

/- ## Section 1: DDL statement model
   Embedding of dt-common/src/meta/ddl_meta/ddl_statement.rs. -/

/-- Modelled from the spec: `DbType` is declared in
dt-common/src/config/config_enums.rs, which is not part of the excerpt.
Only the dialects used by the embedded code are listed (§4.2 names two SQL
dialects; §4.6 names the two warehouse dialects). -/
inductive DbType where
  | mysql
  | pg
  | starrocks
  | doris
deriving DecidableEq, Repr

structure CreateDatabaseStatement where
  db : String
  if_not_exists : Bool
  unparsed : String
deriving DecidableEq, Repr

structure DropDatabaseStatement where
  db : String
  if_exists : Bool
  unparsed : String
deriving DecidableEq, Repr

structure AlterDatabaseStatement where
  db : String
  unparsed : String
deriving DecidableEq, Repr

structure CreateSchemaStatement where
  schema : String
  if_not_exists : Bool
  unparsed : String
deriving DecidableEq, Repr

structure DropSchemaStatement where
  schema : String
  if_exists : Bool
  unparsed : String
deriving DecidableEq, Repr

structure AlterSchemaStatement where
  schema : String
  unparsed : String
deriving DecidableEq, Repr

structure MysqlCreateTableStatement where
  db : String
  tb : String
  if_not_exists : Bool
  unparsed : String
deriving DecidableEq, Repr

structure PgCreateTableStatement where
  schema : String
  tb : String
  temporary : Option String
  unlogged : Option String
  if_not_exists : Bool
  unparsed : String
deriving DecidableEq, Repr

structure DropMultiTableStatement where
  schema_tbs : List (String × String)
  if_exists : Bool
  unparsed : String
deriving DecidableEq, Repr

structure DropTableStatement where
  schema : String
  tb : String
  if_exists : Bool
  unparsed : String
deriving DecidableEq, Repr

structure MysqlAlterTableStatement where
  db : String
  tb : String
  unparsed : String
deriving DecidableEq, Repr

structure MysqlAlterTableRenameStatement where
  db : String
  tb : String
  new_db : String
  new_tb : String
  unparsed : String
deriving DecidableEq, Repr

structure PgAlterTableStatement where
  schema : String
  tb : String
  if_exists : Bool
  is_only : Bool
  unparsed : String
deriving DecidableEq, Repr

structure PgAlterTableRenameStatement where
  schema : String
  tb : String
  new_schema : String
  new_tb : String
  if_exists : Bool
  is_only : Bool
  unparsed : String
deriving DecidableEq, Repr

structure PgAlterTableSetSchemaStatement where
  schema : String
  tb : String
  new_schema : String
  new_tb : String
  if_exists : Bool
  is_only : Bool
  unparsed : String
deriving DecidableEq, Repr

structure MysqlTruncateTableStatement where
  db : String
  tb : String
  unparsed : String
deriving DecidableEq, Repr

structure PgTruncateTableStatement where
  schema : String
  tb : String
  is_only : Bool
  unparsed : String
deriving DecidableEq, Repr

structure RenameMultiTableStatement where
  schema_tbs : List (String × String)
  new_schema_tbs : List (String × String)
  unparsed : String
deriving DecidableEq, Repr

structure RenameTableStatement where
  schema : String
  tb : String
  new_schema : String
  new_tb : String
  unparsed : String
deriving DecidableEq, Repr

structure MysqlCreateIndexStatement where
  db : String
  tb : String
  index_name : String
  index_kind : Option String
  index_type : Option String
  unparsed : String
deriving DecidableEq, Repr

structure PgCreateIndexStatement where
  schema : String
  tb : String
  index_name : Option String
  is_unique : Bool
  is_concurrently : Bool
  if_not_exists : Bool
  is_only : Bool
  unparsed : String
deriving DecidableEq, Repr

structure MysqlDropIndexStatement where
  db : String
  tb : String
  index_name : String
  unparsed : String
deriving DecidableEq, Repr

structure PgDropMultiIndexStatement where
  index_names : List String
  if_exists : Bool
  is_concurrently : Bool
  unparsed : String
deriving DecidableEq, Repr

structure PgDropIndexStatement where
  index_name : String
  if_exists : Bool
  is_concurrently : Bool
  unparsed : String
deriving DecidableEq, Repr

/-- The tagged DDL statement IR (ddl_statement.rs, `enum DdlStatement`). -/
inductive DdlStatement where
  | createDatabase (s : CreateDatabaseStatement)
  | dropDatabase (s : DropDatabaseStatement)
  | alterDatabase (s : AlterDatabaseStatement)
  | createSchema (s : CreateSchemaStatement)
  | dropSchema (s : DropSchemaStatement)
  | alterSchema (s : AlterSchemaStatement)
  | mysqlCreateTable (s : MysqlCreateTableStatement)
  | mysqlAlterTable (s : MysqlAlterTableStatement)
  | mysqlAlterTableRename (s : MysqlAlterTableRenameStatement)
  | mysqlTruncateTable (s : MysqlTruncateTableStatement)
  | mysqlCreateIndex (s : MysqlCreateIndexStatement)
  | mysqlDropIndex (s : MysqlDropIndexStatement)
  | pgCreateTable (s : PgCreateTableStatement)
  | pgAlterTable (s : PgAlterTableStatement)
  | pgAlterTableRename (s : PgAlterTableRenameStatement)
  | pgAlterTableSetSchema (s : PgAlterTableSetSchemaStatement)
  | pgTruncateTable (s : PgTruncateTableStatement)
  | pgCreateIndex (s : PgCreateIndexStatement)
  | dropMultiTable (s : DropMultiTableStatement)
  | renameMultiTable (s : RenameMultiTableStatement)
  | pgDropMultiIndex (s : PgDropMultiIndexStatement)
  | dropTable (s : DropTableStatement)
  | renameTable (s : RenameTableStatement)
  | pgDropIndex (s : PgDropIndexStatement)
  | unknown
deriving DecidableEq, Repr

/-- `DdlStatement::route(&mut self, dst_schema, dst_tb)`
(ddl_statement.rs lines 178-274).  The Rust method mutates `self`; the
embedding returns the updated statement. -/
def DdlStatement.route (stmt : DdlStatement) (dst_schema dst_tb : String) :
    DdlStatement :=
  match stmt with
  | .createDatabase s => .createDatabase { s with db := dst_schema }
  | .dropDatabase s => .dropDatabase { s with db := dst_schema }
  | .alterDatabase s => .alterDatabase { s with db := dst_schema }
  | .createSchema s => .createSchema { s with schema := dst_schema }
  | .dropSchema s => .dropSchema { s with schema := dst_schema }
  | .alterSchema s => .alterSchema { s with schema := dst_schema }
  | .mysqlCreateTable s =>
      .mysqlCreateTable
        { s with db := if s.db.isEmpty then s.db else dst_schema, tb := dst_tb }
  | .mysqlAlterTable s =>
      .mysqlAlterTable
        { s with db := if s.db.isEmpty then s.db else dst_schema, tb := dst_tb }
  | .mysqlTruncateTable s =>
      .mysqlTruncateTable
        { s with db := if s.db.isEmpty then s.db else dst_schema, tb := dst_tb }
  | .mysqlCreateIndex s =>
      .mysqlCreateIndex
        { s with db := if s.db.isEmpty then s.db else dst_schema, tb := dst_tb }
  | .mysqlDropIndex s =>
      .mysqlDropIndex
        { s with db := if s.db.isEmpty then s.db else dst_schema, tb := dst_tb }
  | .pgCreateTable s =>
      .pgCreateTable
        { s with
          schema := if s.schema.isEmpty then s.schema else dst_schema,
          tb := dst_tb }
  | .pgAlterTable s =>
      .pgAlterTable
        { s with
          schema := if s.schema.isEmpty then s.schema else dst_schema,
          tb := dst_tb }
  | .pgTruncateTable s =>
      .pgTruncateTable
        { s with
          schema := if s.schema.isEmpty then s.schema else dst_schema,
          tb := dst_tb }
  | .pgCreateIndex s =>
      .pgCreateIndex
        { s with
          schema := if s.schema.isEmpty then s.schema else dst_schema,
          tb := dst_tb }
  | .dropTable s =>
      .dropTable
        { s with
          schema := if s.schema.isEmpty then s.schema else dst_schema,
          tb := dst_tb }
  | .renameTable s => .renameTable s
  | .mysqlAlterTableRename s => .mysqlAlterTableRename s
  | .pgAlterTableRename s => .pgAlterTableRename s
  | .pgAlterTableSetSchema s => .pgAlterTableSetSchema s
  | .pgDropIndex s => .pgDropIndex s
  | .pgDropMultiIndex s => .pgDropMultiIndex s
  | .dropMultiTable s => .dropMultiTable s
  | .renameMultiTable s => .renameMultiTable s
  | .unknown => .unknown

/-- Modelled from the spec: `SqlUtil::escape_by_db_type`
(dt-common/src/utils/sql_util.rs is not part of the excerpt).  Per §4.2
identifier emission uses dialect-specific quoting, and the literal
scenarios of §8 show MySQL identifiers wrapped in backticks and PG
identifiers in double quotes. -/
def escape_identifier_model (identifier : String) (db_type : DbType) : String :=
  match db_type with
  | .mysql => "`" ++ identifier ++ "`"
  | .pg => "\"" ++ identifier ++ "\""
  | _ => identifier

/-- `fn append_tb` (ddl_statement.rs lines 936-944). -/
def append_tb (sql schema tb : String) (db_type : DbType) : String :=
  let tbe := escape_identifier_model tb db_type
  if schema.isEmpty then
    sql ++ " " ++ tbe
  else
    sql ++ " " ++ escape_identifier_model schema db_type ++ "." ++ tbe

/-- `fn append_opt_str` (ddl_statement.rs lines 946-952). -/
def append_opt_str (sql : String) (opt_str : Option String) : String :=
  match opt_str with
  | some s => sql ++ " " ++ s
  | none => sql

/-- `fn append_identifier` (ddl_statement.rs lines 954-966). -/
def append_identifier (sql identifier : String) (with_white_space : Bool)
    (db_type : DbType) : String :=
  let ide := escape_identifier_model identifier db_type
  if with_white_space then sql ++ " " ++ ide else sql ++ ide

/-- `fn append_unparsed` (ddl_statement.rs lines 968-973). -/
def append_unparsed (sql unparsed : String) : String :=
  if unparsed.isEmpty then sql else sql ++ " " ++ unparsed

/-- `DropMultiTableStatement::to_sql` (ddl_statement.rs lines 887-899).
The table loop is embedded as a fold in source order. -/
def DropMultiTableStatement.to_sql (s : DropMultiTableStatement)
    (db_type : DbType) : String :=
  let sql := "DROP TABLE"
  let sql := if s.if_exists then sql ++ " IF EXISTS" else sql
  let sql := s.schema_tbs.foldl
    (fun acc st => append_tb acc st.1 st.2 db_type) sql
  append_unparsed sql s.unparsed

/-- Body of the `RenameMultiTableStatement::to_sql` loop: the Rust code
walks `schema_tbs` zipped by index with `new_schema_tbs` and appends a
comma after every element except the last. -/
def rename_multi_loop (db_type : DbType) :
    String → List ((String × String) × (String × String)) → String
  | sql, [] => sql
  | sql, (st, nst) :: rest =>
      let sql := append_tb sql st.1 st.2 db_type
      let sql := sql ++ " TO"
      let sql := append_tb sql nst.1 nst.2 db_type
      let sql := if rest.isEmpty then sql else sql ++ ","
      rename_multi_loop db_type sql rest

/-- `RenameMultiTableStatement::to_sql` (ddl_statement.rs lines 901-915).
The Rust loop indexes `new_schema_tbs[i]` (panicking when it is shorter);
the embedding zips the two lists, which agrees with the source whenever
the lists have equal length (the invariant of the IR).  Note the source
returns `sql` directly: `unparsed` is never appended here. -/
def RenameMultiTableStatement.to_sql (s : RenameMultiTableStatement)
    (db_type : DbType) : String :=
  rename_multi_loop db_type "RENAME TABLE" (s.schema_tbs.zip s.new_schema_tbs)

/-- Body of the `PgDropMultiIndexStatement::to_sql` loop (comma after
every index name but the last). -/
def pg_drop_multi_index_loop (db_type : DbType) :
    String → List String → String
  | sql, [] => sql
  | sql, name :: rest =>
      let sql := append_identifier sql name true db_type
      let sql := if rest.isEmpty then sql else sql ++ ","
      pg_drop_multi_index_loop db_type sql rest

/-- `PgDropMultiIndexStatement::to_sql` (ddl_statement.rs lines 917-934). -/
def PgDropMultiIndexStatement.to_sql (s : PgDropMultiIndexStatement)
    (db_type : DbType) : String :=
  let sql := "DROP INDEX"
  let sql := if s.is_concurrently then sql ++ " CONCURRENTLY" else sql
  let sql := if s.if_exists then sql ++ " IF EXISTS" else sql
  let sql := pg_drop_multi_index_loop db_type sql s.index_names
  append_unparsed sql s.unparsed

/-- `DdlStatement::to_sql` (ddl_statement.rs lines 474-697). -/
def DdlStatement.to_sql (stmt : DdlStatement) (db_type : DbType) : String :=
  match stmt with
  | .createDatabase s =>
      let sql := "CREATE DATABASE"
      let sql := if s.if_not_exists then sql ++ " IF NOT EXISTS" else sql
      let sql := append_identifier sql s.db true db_type
      append_unparsed sql s.unparsed
  | .dropDatabase s =>
      let sql := "DROP DATABASE"
      let sql := if s.if_exists then sql ++ " IF EXISTS" else sql
      let sql := append_identifier sql s.db true db_type
      append_unparsed sql s.unparsed
  | .alterDatabase s =>
      let sql := "ALTER DATABASE"
      let sql := append_identifier sql s.db true db_type
      append_unparsed sql s.unparsed
  | .createSchema s =>
      let sql := "CREATE SCHEMA"
      let sql := if s.if_not_exists then sql ++ " IF NOT EXISTS" else sql
      let sql := append_identifier sql s.schema true db_type
      append_unparsed sql s.unparsed
  | .dropSchema s =>
      let sql := "DROP SCHEMA"
      let sql := if s.if_exists then sql ++ " IF EXISTS" else sql
      let sql := append_identifier sql s.schema true db_type
      append_unparsed sql s.unparsed
  | .alterSchema s =>
      let sql := "ALTER SCHEMA"
      let sql := append_identifier sql s.schema true db_type
      append_unparsed sql s.unparsed
  | .mysqlCreateTable s =>
      let sql := "CREATE TABLE"
      let sql := if s.if_not_exists then sql ++ " IF NOT EXISTS" else sql
      let sql := append_tb sql s.db s.tb db_type
      append_unparsed sql s.unparsed
  | .pgCreateTable s =>
      let sql := "CREATE"
      let sql := append_opt_str sql s.temporary
      let sql := append_opt_str sql s.unlogged
      let sql := sql ++ " TABLE"
      let sql := if s.if_not_exists then sql ++ " IF NOT EXISTS" else sql
      let sql := append_tb sql s.schema s.tb db_type
      append_unparsed sql s.unparsed
  | .dropMultiTable s => s.to_sql db_type
  | .dropTable s =>
      DropMultiTableStatement.to_sql
        { if_exists := s.if_exists,
          schema_tbs := [(s.schema, s.tb)],
          unparsed := s.unparsed } db_type
  | .mysqlTruncateTable s =>
      let sql := "TRUNCATE TABLE"
      let sql := append_tb sql s.db s.tb db_type
      append_unparsed sql s.unparsed
  | .pgTruncateTable s =>
      let sql := "TRUNCATE TABLE"
      let sql := if s.is_only then sql ++ " ONLY" else sql
      let sql := append_tb sql s.schema s.tb db_type
      append_unparsed sql s.unparsed
  | .mysqlAlterTable s =>
      let sql := "ALTER TABLE"
      let sql := append_tb sql s.db s.tb db_type
      append_unparsed sql s.unparsed
  | .mysqlAlterTableRename s =>
      let sql := "ALTER TABLE"
      let sql := append_tb sql s.db s.tb db_type
      let sql := sql ++ " RENAME TO"
      let sql := append_tb sql s.new_db s.new_tb db_type
      append_unparsed sql s.unparsed
  | .pgAlterTable s =>
      let sql := "ALTER TABLE"
      let sql := if s.if_exists then sql ++ " IF EXISTS" else sql
      let sql := if s.is_only then sql ++ " ONLY" else sql
      let sql := append_tb sql s.schema s.tb db_type
      append_unparsed sql s.unparsed
  | .pgAlterTableRename s =>
      let sql := "ALTER TABLE"
      let sql := if s.if_exists then sql ++ " IF EXISTS" else sql
      let sql := if s.is_only then sql ++ " ONLY" else sql
      let sql := append_tb sql s.schema s.tb db_type
      let sql := sql ++ " RENAME TO"
      let sql := append_tb sql s.new_schema s.new_tb db_type
      append_unparsed sql s.unparsed
  | .pgAlterTableSetSchema s =>
      let sql := "ALTER TABLE"
      let sql := if s.if_exists then sql ++ " IF EXISTS" else sql
      let sql := if s.is_only then sql ++ " ONLY" else sql
      let sql := append_tb sql s.schema s.tb db_type
      let sql := sql ++ " SET SCHEMA"
      let sql := append_identifier sql s.new_schema true db_type
      append_unparsed sql s.unparsed
  | .renameMultiTable s => s.to_sql db_type
  | .renameTable s =>
      RenameMultiTableStatement.to_sql
        { schema_tbs := [(s.schema, s.tb)],
          new_schema_tbs := [(s.new_schema, s.new_tb)],
          unparsed := s.unparsed } db_type
  | .mysqlCreateIndex s =>
      let sql := "CREATE"
      let sql := match s.index_kind with
        | some index_kind => sql ++ " " ++ index_kind.toUpper
        | none => sql
      let sql := sql ++ " INDEX"
      let sql := append_identifier sql s.index_name true db_type
      let sql := match s.index_type with
        | some index_type => sql ++ " USING " ++ index_type.toUpper
        | none => sql
      let sql := sql ++ " ON"
      let sql := append_tb sql s.db s.tb db_type
      append_unparsed sql s.unparsed
  | .pgCreateIndex s =>
      let sql := "CREATE"
      let sql := if s.is_unique then sql ++ " UNIQUE" else sql
      let sql := sql ++ " INDEX"
      let sql := if s.is_concurrently then sql ++ " CONCURRENTLY" else sql
      let sql := if s.if_not_exists then sql ++ " IF NOT EXISTS" else sql
      let sql := match s.index_name with
        | some index_name => append_identifier sql index_name true db_type
        | none => sql
      let sql := sql ++ " ON"
      let sql := if s.is_only then sql ++ " ONLY" else sql
      let sql := append_tb sql s.schema s.tb db_type
      append_unparsed sql s.unparsed
  | .mysqlDropIndex s =>
      let sql := "DROP INDEX"
      let sql := append_identifier sql s.index_name true db_type
      let sql := sql ++ " ON"
      let sql := append_tb sql s.db s.tb db_type
      append_unparsed sql s.unparsed
  | .pgDropMultiIndex s => s.to_sql db_type
  | .pgDropIndex s =>
      PgDropMultiIndexStatement.to_sql
        { if_exists := s.if_exists,
          is_concurrently := s.is_concurrently,
          unparsed := s.unparsed,
          index_names := [s.index_name] } db_type
  | .unknown => ""

/- ## Section 2: Identifier tokenizer
   Embedding of dt-common/src/config/config_token_parser.rs.
   The Rust code collects the input into `Vec<char>` and walks it with a
   start index; the embedding passes the suffix `chars[start..]` directly
   (every helper of the source reads only `chars.iter().skip(start_index)`
   or `chars[start_index + i]`) and returns the `read_count` instead of
   `next_index = start_index + read_count`. -/

/-- Rust `char::is_whitespace` (the Unicode White_Space property), used by
`str::trim` when the tokenizer trims each token. -/
def rust_is_whitespace (c : Char) : Bool :=
  let n := c.toNat
  (decide (9 ≤ n) && decide (n ≤ 13)) || n == 32 || n == 0x85 || n == 0xA0 ||
    n == 0x1680 || (decide (0x2000 ≤ n) && decide (n ≤ 0x200A)) ||
    n == 0x2028 || n == 0x2029 || n == 0x202F || n == 0x205F || n == 0x3000

/-- Rust `str::trim` on a token, at the `Vec<char>` level: drop
whitespace from the front, then from the back. -/
def trimChars (l : List Char) : List Char :=
  List.rdropWhile rust_is_whitespace (l.dropWhile rust_is_whitespace)

/-- `ConfigTokenParser::read_token_to_delimiter` (lines 92-110): read
until the next delimiter; returns the token and its `read_count`. -/
def read_token_to_delimiter (delimiters : List Char) (s : List Char) :
    List Char × Nat :=
  let token := s.takeWhile (fun c => !(delimiters.contains c))
  (token, token.length)

/-- Loop body of `read_token_with_escape` (lines 112-140).  `started`
is the source's local flag `start`; the checks occur in source order:
break on the closing char when already started, then possibly set the
flag on the opening char, then push when the flag is set. -/
def escape_read (pr : Char × Char) : List Char → Bool → List Char × Nat
  | [], _ => ([], 0)
  | c :: rest, started =>
    if started && (c == pr.2) then
      ([c], 1)
    else
      let started2 := started || (c == pr.1)
      let (t, n) := escape_read pr rest started2
      if started2 then (c :: t, n + 1) else (t, n)

/-- `ConfigTokenParser::read_token_with_escape` (lines 112-140). -/
def read_token_with_escape (s : List Char) (pr : Char × Char) :
    List Char × Nat :=
  escape_read pr s false

/-- Loop body of `read_token_with_regex_escape` (lines 142-156): push the
char, bump the count, and stop once the count exceeds the `r#` prefix
length (2) and the char is `#`. -/
def regex_read : List Char → Nat → List Char × Nat
  | [], _ => ([], 0)
  | c :: rest, cnt =>
    if decide (2 < cnt + 1) && (c == '#') then
      ([c], 1)
    else
      let (t, n) := regex_read rest (cnt + 1)
      (c :: t, n + 1)

/-- `ConfigTokenParser::read_token_with_regex_escape` (lines 142-156). -/
def read_token_with_regex_escape (s : List Char) : List Char × Nat :=
  regex_read s 0

/-- The `for (escape_left, escape_right) in escape_pairs` loop of
`read_token` (lines 59-78): the first pair whose opener equals the
current char wins; otherwise a pair whose opener does not match still
lets the `r#` prefix check fire.  `match_prefix` (lines 80-90) is the
prefix test on the suffix. -/
def read_token_core (delimiters : List Char) (s : List Char) (c0 : Char) :
    List (Char × Char) → List Char × Nat
  | [] => read_token_to_delimiter delimiters s
  | (l, r) :: ps =>
    if c0 == l then
      read_token_with_escape s (l, r)
    else if ['r', '#'].isPrefixOf s then
      read_token_with_regex_escape s
    else
      read_token_core delimiters s c0 ps

/-- `ConfigTokenParser::read_token` (lines 59-78).  With a non-empty
escape-pair list the source evaluates `chars[start_index]`, which panics
(index out of bounds) when the scan position has reached the end; the
panic is embedded as `none`. -/
def read_token (delimiters : List Char) (escape_pairs : List (Char × Char))
    (s : List Char) : Option (List Char × Nat) :=
  match escape_pairs, s with
  | [], _ => some (read_token_to_delimiter delimiters s)
  | _ :: _, [] => none
  | ps, c0 :: _ => some (read_token_core delimiters s c0 ps)

/-- The `loop` of `ConfigTokenParser::parse` (lines 43-54): push the
trimmed token, stop when `next_index` reaches the end, otherwise skip one
character (`start_index = next_index + 1`) and continue.  The loop runs
at most `|s|` times because each iteration consumes `read_count + 1 ≥ 1`
characters; the `fuel` argument makes the recursion structural and is
started above the length, so the `fuel = 0` case is unreachable. -/
def parse_go (delimiters : List Char) (escape_pairs : List (Char × Char)) :
    Nat → List Char → Option (List (List Char))
  | 0, _ => none
  | fuel + 1, s =>
    match read_token delimiters escape_pairs s with
    | none => none
    | some (token, count) =>
      if s.length ≤ count then
        some [trimChars token]
      else
        match parse_go delimiters escape_pairs fuel (s.drop (count + 1)) with
        | none => none
        | some ts => some (trimChars token :: ts)

/-- `ConfigTokenParser::parse` (lines 34-57): empty input short-circuits
to the empty token list; `none` embeds the out-of-bounds panic described
at `read_token`. -/
def parse_tokens (config delimiters : List Char)
    (escape_pairs : List (Char × Char)) : Option (List (List Char)) :=
  if config.isEmpty then some []
  else parse_go delimiters escape_pairs (config.length + 1) config

/- ## Section 3: JSON value model and the two row-event JSON converters
   Embedding of dt-common/src/meta/json/json_converter.rs and
   dt-common/src/meta/json/cloudcanal_converter.rs. -/

/-- `serde_json::Value`.  `Number` is embedded as `Int`: every number the
embedded converter arms build comes from an integer (`into()` on
`i8..u64`); numbers of floating-point origin enter only through the
opaque `FloatModel` below.  Object fields are kept as an association
list. -/
inductive JValue where
  | jnull
  | jbool (b : Bool)
  | jnum (n : Int)
  | jstr (s : String)
  | jarr (xs : List JValue)
  | jobj (fields : List (String × JValue))

/-- Discriminator used to state that a rendering is not a JSON number. -/
def JValue.isNumber : JValue → Bool
  | .jnum _ => true
  | _ => false

/-- Opaque model of an `f32`/`f64` payload: IEEE semantics are out of
scope.  `finite` is whether `serde_json::Number::from_f64` succeeds,
`num` is that number as embedded, `str` the Rust `Display` rendering of
the float. -/
structure FloatModel where
  finite : Bool
  num : Int
  str : String
deriving DecidableEq, Repr

/-- `ColValue` (dt-common/src/meta/col_value.rs is not in the excerpt;
the constructor list and payload shapes are those matched by the two
converters and by the warehouse sinker, and agree with §3 of the spec).
Byte payloads (`Vec<u8>`) are lists of `Nat`; the Mongo document payload
is embedded by its `to_string()` rendering (only ever used as a string). -/
inductive ColValue where
  | none
  | bool (v : Bool)
  | tiny (v : Int)
  | unsignedTiny (v : Nat)
  | short (v : Int)
  | unsignedShort (v : Nat)
  | long (v : Int)
  | unsignedLong (v : Nat)
  | longLong (v : Int)
  | unsignedLongLong (v : Nat)
  | float (v : FloatModel)
  | double (v : FloatModel)
  | decimal (v : String)
  | time (v : String)
  | date (v : String)
  | dateTime (v : String)
  | timestamp (v : String)
  | year (v : Int)
  | string (v : String)
  | rawString (v : List Nat)
  | blob (v : List Nat)
  | bit (v : Nat)
  | set (v : Nat)
  | set2 (v : String)
  | enum (v : Nat)
  | enum2 (v : String)
  | json (v : List Nat)
  | json2 (v : String)
  | json3 (v : JValue)
  | mongoDoc (v : String)

/-- External library functions the converters call; they live outside
this repository (serde_json, std) and are abstracted as parameters, so
every theorem below holds for any behaviour of these functions:
`parse_json_str` is `serde_json::from_str::<Value>` (success = `some`),
`parse_json_bytes` is `serde_json::from_slice::<Value>`, and
`utf8_lossy` is `String::from_utf8_lossy`. -/
structure ExtLib where
  parse_json_str : String → Option JValue
  parse_json_bytes : List Nat → Option JValue
  utf8_lossy : List Nat → String

/-- The base64 alphabet (RFC 4648), as used by Rust `base64::encode`. -/
def base64_table : List Char :=
  "ABCDEFGHIJKLMNOPQRSTUVWXYZabcdefghijklmnopqrstuvwxyz0123456789+/".toList

def base64_char (n : Nat) : Char := base64_table.getD n 'A'

/-- Rust `base64::encode` on a byte list (bytes are < 256; the `% 64`
guards only keep the function total on arbitrary `Nat`). -/
def base64_encode : List Nat → String
  | [] => ""
  | [b0] =>
      String.mk [base64_char (b0 / 4 % 64), base64_char (b0 % 4 * 16)] ++ "=="
  | [b0, b1] =>
      String.mk [base64_char (b0 / 4 % 64),
        base64_char ((b0 % 4 * 16 + b1 / 16) % 64),
        base64_char (b1 % 16 * 4 % 64)] ++ "="
  | b0 :: b1 :: b2 :: rest =>
      String.mk [base64_char (b0 / 4 % 64),
        base64_char ((b0 % 4 * 16 + b1 / 16) % 64),
        base64_char ((b1 % 16 * 4 + b2 / 64) % 64),
        base64_char (b2 % 64)] ++ base64_encode rest

/-- JSON string escaping of `serde_json::to_string`, restricted to the
escapes that can occur in the identifiers and values exercised here
(serde additionally `\u`-escapes other control characters; no embedded
claim reaches them). -/
def json_escape_char (c : Char) : String :=
  if c = '"' then "\\\""
  else if c = '\\' then "\\\\"
  else if c = '\n' then "\\n"
  else if c = '\r' then "\\r"
  else if c = '\t' then "\\t"
  else String.singleton c

def json_quote (s : String) : String :=
  "\"" ++ String.join (s.toList.map json_escape_char) ++ "\""

mutual

/-- `serde_json::to_string` of a `Value` (compact rendering). -/
def JValue.render : JValue → String
  | .jnull => "null"
  | .jbool b => if b then "true" else "false"
  | .jnum n => toString n
  | .jstr s => json_quote s
  | .jarr xs => "[" ++ JValue.render_list xs ++ "]"
  | .jobj fs => "\x7b" ++ JValue.render_fields fs ++ "\x7d"

def JValue.render_list : List JValue → String
  | [] => ""
  | [x] => JValue.render x
  | x :: xs => JValue.render x ++ "," ++ JValue.render_list xs

def JValue.render_fields : List (String × JValue) → String
  | [] => ""
  | [(k, v)] => json_quote k ++ ":" ++ JValue.render v
  | (k, v) :: fs =>
      json_quote k ++ ":" ++ JValue.render v ++ "," ++ JValue.render_fields fs

end

/-- Modelled from the spec: `RowType` (dt-common/src/meta/row_type.rs is
not in the excerpt); §3: kind ∈ Insert | Update | Delete. -/
inductive RowType where
  | insert
  | update
  | delete
deriving DecidableEq, Repr

/-- Modelled from the spec: `RowData` (dt-common/src/meta/row_data.rs is
not in the excerpt); §3 RowEvent.  The unordered column maps (Rust
`HashMap<String, ColValue>`) are embedded as association lists, with
`List.lookup` for `HashMap::get`. -/
structure RowData where
  schema : String
  tb : String
  row_type : RowType
  before : Option (List (String × ColValue))
  after : Option (List (String × ColValue))
  data_size : Nat

/-- The slice of `RdbTbMeta` read by the embedded functions: the key map
`name → ordered column list` with the distinguished key "primary"
(§3 MetaView; rdb_tb_meta.rs is not in the excerpt). -/
structure RdbTbMeta where
  key_map : List (String × List String)

/-- The meta-manager facade as the converters see it:
`get_tb_meta(schema, tb)` returning `Ok(meta)` is embedded as `some`, an
`Err` as `none` — the converters only distinguish those two outcomes
(`if let Ok(tb_meta) = ...`). -/
def RdbMetaManager := String → String → Option RdbTbMeta

/-- `fn col_value_to_json_value` of json_converter.rs (lines 91-156). -/
def JsonConverter.col_value_to_json_value (ext : ExtLib) :
    ColValue → JValue
  | .none => .jnull
  | .bool v => .jbool v
  | .tiny v => .jnum v
  | .unsignedTiny v => .jnum v
  | .short v => .jnum v
  | .unsignedShort v => .jnum v
  | .long v => .jnum v
  | .unsignedLong v => .jnum v
  | .longLong v => .jnum v
  | .unsignedLongLong v => .jnum v
  | .float v => if v.finite then .jnum v.num else .jstr v.str
  | .double v => if v.finite then .jnum v.num else .jstr v.str
  | .decimal v => .jstr v
  | .time v => .jstr v
  | .date v => .jstr v
  | .dateTime v => .jstr v
  | .timestamp v => .jstr v
  | .year v => .jnum v
  | .string v => .jstr v
  | .rawString v => .jstr (base64_encode v)
  | .blob v => .jstr (base64_encode v)
  | .bit v => .jnum v
  | .set v => .jnum v
  | .set2 v => .jstr v
  | .enum v => .jnum v
  | .enum2 v => .jstr v
  | .json v =>
      match ext.parse_json_bytes v with
      | some json_val => json_val
      | Option.none => .jstr (base64_encode v)
  | .json2 v =>
      match ext.parse_json_str v with
      | some json_val => json_val
      | Option.none => .jstr v
  | .json3 v => v
  | .mongoDoc _ => .jnull

/-- `fn col_value_to_json_value` of cloudcanal_converter.rs
(lines 184-223).  Note `Bit`, `Enum` and `Set` go through
`Value::String(v.to_string())` here. -/
def CloudCanalConverter.col_value_to_json_value (ext : ExtLib) :
    ColValue → JValue
  | .none => .jnull
  | .bool v => .jbool v
  | .tiny v => .jnum v
  | .unsignedTiny v => .jnum v
  | .short v => .jnum v
  | .unsignedShort v => .jnum v
  | .long v => .jnum v
  | .unsignedLong v => .jnum v
  | .longLong v => .jnum v
  | .unsignedLongLong v => .jnum v
  | .float v => .jnum (if v.finite then v.num else 0)
  | .double v => .jnum (if v.finite then v.num else 0)
  | .decimal v => .jstr v
  | .string v => .jstr v
  | .blob v => .jstr (base64_encode v)
  | .date v => .jstr v
  | .time v => .jstr v
  | .dateTime v => .jstr v
  | .timestamp v => .jstr v
  | .json v =>
      let json_str := ext.utf8_lossy v
      match ext.parse_json_str json_str with
      | some json_val => json_val
      | Option.none => .jstr json_str
  | .json2 v =>
      match ext.parse_json_str v with
      | some json_val => json_val
      | Option.none => .jstr v
  | .json3 v => v
  | .rawString v => .jstr (ext.utf8_lossy v)
  | .set2 v => .jstr v
  | .enum2 v => .jstr v
  | .mongoDoc v => .jstr v
  | .enum v => .jstr (toString v)
  | .set v => .jstr (toString v)
  | .year v => .jnum v
  | .bit v => .jstr (toString v)

/-- `JsonConverter::row_data_to_json_key` (json_converter.rs lines
35-50): primary-key values are looked up in `row_data.after` only, the
found ones are collected and serialized as a JSON array; without a meta
manager, without table meta, or without a "primary" key the fallback is
`"{schema}_{tb}"`. -/
def JsonConverter.row_data_to_json_key (ext : ExtLib)
    (meta_manager : Option RdbMetaManager) (row_data : RowData) : String :=
  match meta_manager with
  | some get_tb_meta =>
    match get_tb_meta row_data.schema row_data.tb with
    | some tb_meta =>
      match tb_meta.key_map.lookup "primary" with
      | some primary_key =>
          JValue.render (.jarr (primary_key.filterMap (fun pk_col =>
            (row_data.after.bind (fun after => after.lookup pk_col)).map
              (JsonConverter.col_value_to_json_value ext))))
      | Option.none => row_data.schema ++ "_" ++ row_data.tb
    | Option.none => row_data.schema ++ "_" ++ row_data.tb
  | Option.none => row_data.schema ++ "_" ++ row_data.tb

/-- `CloudCanalConverter::row_data_to_json_key`
(cloudcanal_converter.rs lines 36-51); identical control flow, but the
key values go through the CloudCanal value converter. -/
def CloudCanalConverter.row_data_to_json_key (ext : ExtLib)
    (meta_manager : Option RdbMetaManager) (row_data : RowData) : String :=
  match meta_manager with
  | some get_tb_meta =>
    match get_tb_meta row_data.schema row_data.tb with
    | some tb_meta =>
      match tb_meta.key_map.lookup "primary" with
      | some primary_key =>
          JValue.render (.jarr (primary_key.filterMap (fun pk_col =>
            (row_data.after.bind (fun after => after.lookup pk_col)).map
              (CloudCanalConverter.col_value_to_json_value ext))))
      | Option.none => row_data.schema ++ "_" ++ row_data.tb
    | Option.none => row_data.schema ++ "_" ++ row_data.tb
  | Option.none => row_data.schema ++ "_" ++ row_data.tb

/- ## Section 4: Warehouse bulk-load sinker
   Embedding of the state/header slice of
   dt-connector/src/sinker/starrocks/starrocks_sinker.rs that claims C3
   and C4 are about: the `sync_timestamp` bump (line 100), the `op`
   computation (lines 132-144) and the request header set built by
   `build_request` (lines 217-262).  The row-payload conversion and the
   HTTP transport are not read by these claims. -/

def SIGN_COL_NAME : String := "_ape_dts_is_deleted"

def TIMESTAMP_COL_NAME : String := "_ape_dts_timestamp"

/-- Line 100: `self.sync_timestamp =
cmp::max(Utc::now().timestamp_millis(), self.sync_timestamp + 1)`;
`now` is the wall clock in milliseconds. -/
def next_sync_timestamp (now sync_timestamp : Int) : Int :=
  max now (sync_timestamp + 1)

/-- Lines 132-144: the `op` marker.  For StarRocks the effective
hard-delete switch is `self.hard_delete || !col_origin_type_map.
contains_key(SIGN_COL_NAME)`; for every other dialect `op` is "delete"
whenever the first row of the batch is a Delete. -/
def StarRocksSinker.compute_op (db_type : DbType) (hard_delete : Bool)
    (first_row_type : RowType) (tb_meta_contains_sign_col : Bool) : String :=
  if db_type = DbType.starrocks then
    let hard_delete2 := hard_delete || !tb_meta_contains_sign_col
    if first_row_type = RowType.delete ∧ hard_delete2 = true then "delete"
    else ""
  else if first_row_type = RowType.delete then "delete"
  else ""

/-- `build_request` (lines 217-262), restricted to the header set: the
four fixed stream-load headers plus, when `op` is non-empty, the
dialect-specific delete header — `columns: __op='<op>'` for StarRocks,
`merge_type: <op>` for Doris, nothing for other dialects. -/
def StarRocksSinker.build_request_headers (db_type : DbType) (op : String) :
    List (String × String) :=
  let base := [("Expect", "100-continue"), ("format", "json"),
    ("strip_outer_array", "true"), ("timezone", "UTC")]
  if op.isEmpty then base
  else
    match db_type with
    | DbType.starrocks => base ++ [("columns", "__op=\x27" ++ op ++ "\x27")]
    | DbType.doris => base ++ [("merge_type", op)]
    | _ => base

/-- The observable outcome of one `send_data` call (lines 90-162) for
claims C3/C4: the new per-sink `sync_timestamp`, the `op` marker and the
request headers.  `row_types` are the row kinds of the batch slice
`data[start_index..start_index+batch_size]`; the source reads
`data[start_index].row_type` and a batch is never empty (`sink_dml`
returns early on empty input), so `headD` never supplies its default in
a reachable state. -/
def StarRocksSinker.send_data_model (db_type : DbType) (hard_delete : Bool)
    (sync_timestamp now : Int) (row_types : List RowType)
    (tb_meta_contains_sign_col : Bool) :
    Int × String × List (String × String) :=
  let first_row_type := row_types.headD RowType.insert
  let ts := next_sync_timestamp now sync_timestamp
  let op := StarRocksSinker.compute_op db_type hard_delete first_row_type
    tb_meta_contains_sign_col
  (ts, op, StarRocksSinker.build_request_headers db_type op)

/- ## Section 5: Cluster-slot (Redis) parallelizer
   Embedding of the per-event dispatch loop of
   dt-parallelizer/src/redis_parallelizer.rs (`sink_raw`, lines 60-100). -/

/-- The slice of a `DtData::Redis { entry }` item read by the dispatch:
the command text and the result of `entry.cal_slots(&key_parser)`
(key-to-slot hashing lives in dt-common outside the excerpt; an entry
with no key yields the empty slot list). -/
structure RedisEntry where
  cmd : String
  slots : List Nat
deriving DecidableEq, Repr

/-- The `Error` variant raised by the embedded dispatch
(dt-common/src/error.rs line 33). -/
inductive ApeError where
  | redisCmdError (msg : String)
deriving DecidableEq, Repr

/-- The `for mut dt_item in data` loop (lines 66-100).  The two
`unwrap`ed map lookups (`slot_node_map.get`, `node_sinker_index_map.get`)
are embedded as total functions; `node_data_items[sinker_index].push`
would panic in Rust were the index out of range — the embedding's
`set`/`getD` are no-ops there, and every theorem below assumes the index
is in range. -/
def RedisParallelizer.dispatch_loop (slot_node_map : Nat → String)
    (node_sinker_index_map : String → Nat) :
    List RedisEntry → List (List RedisEntry) →
      Except ApeError (List (List RedisEntry))
  | [], node_data_items => .ok node_data_items
  | dt_item :: rest, node_data_items =>
    match dt_item.slots with
    | [] =>
        RedisParallelizer.dispatch_loop slot_node_map node_sinker_index_map
          rest (node_data_items.map (fun node_data => node_data ++ [dt_item]))
    | s0 :: srest =>
      if srest.any (fun s => s ≠ s0) then
        .error (.redisCmdError
          ("multi keys don\x27t hash to the same slot, cmd: " ++ dt_item.cmd))
      else
        let sinker_index := node_sinker_index_map (slot_node_map s0)
        RedisParallelizer.dispatch_loop slot_node_map node_sinker_index_map
          rest (node_data_items.set sinker_index
            ((node_data_items.getD sinker_index []) ++ [dt_item]))

/-- `sink_raw` dispatch on the cluster path (`slot_node_map` non-empty):
one initially-empty bucket per sinker, then the per-event loop. -/
def RedisParallelizer.sink_raw_dispatch (slot_node_map : Nat → String)
    (node_sinker_index_map : String → Nat) (num_sinkers : Nat)
    (data : List RedisEntry) : Except ApeError (List (List RedisEntry)) :=
  RedisParallelizer.dispatch_loop slot_node_map node_sinker_index_map data
    (List.replicate num_sinkers [])

/- ## Section 6: Row-partition parallelizer drain
   Embedding of dt-parallelizer/src/partition_parallelizer.rs
   (`drain`, lines 31-63). -/

/-- Modelled from the spec: `DtData` (dt-common/src/meta/dt_data.rs is
not in the excerpt); §3 gives `DtData = Dml | Ddl | Commit | Raw`.  The
drain matches `Dml { row_data }` and `Commit { .. }` and discards the
rest through a wildcard; payloads the drain never reads are omitted. -/
inductive DtData where
  | dml (row_data : RowData)
  | ddl
  | commit
  | raw

/-- `PartitionParallelizer::drain` (lines 31-63).  The queue is embedded
as the list of items its pops yield, in order; `can_be_partitioned`
(RdbPartitioner, outside the excerpt) is a boolean oracle — its `Err`
case aborts the whole drain and returns no batch, so the claims quantify
over its boolean outcomes.  When `parallel_size > 1` and a Dml row is
not partitionable it is kept and the loop stops; Commit items are always
kept; every other item is dropped. -/
def PartitionParallelizer.drain (parallel_size : Nat)
    (can_be_partitioned : RowData → Bool) : List DtData → List DtData
  | [] => []
  | DtData.dml row_data :: rest =>
      if 1 < parallel_size ∧ can_be_partitioned row_data = false then
        [DtData.dml row_data]
      else
        DtData.dml row_data ::
          PartitionParallelizer.drain parallel_size can_be_partitioned rest
  | DtData.commit :: rest =>
      DtData.commit ::
        PartitionParallelizer.drain parallel_size can_be_partitioned rest
  | DtData.ddl :: rest =>
      PartitionParallelizer.drain parallel_size can_be_partitioned rest
  | DtData.raw :: rest =>
      PartitionParallelizer.drain parallel_size can_be_partitioned rest

/- ## Section 7: KV-cluster resharder
   Embedding of the per-slot command sequence of
   dt-connector/src/extractor/redis/redis_reshard_extractor.rs
   (`setslot_and_migrate`, lines 110-187, and `get_keys_in_slot`,
   lines 189-196).  A command is a `RedisCmd::from_str_args` argument
   list; the trace records, in program order, every
   `req_packed_command` together with the connection it is issued on. -/

structure ClusterNode where
  id : String
  host : String
  port : String
  address : String
  slots : List Nat
deriving DecidableEq, Repr

/-- Which connection a command is issued on. -/
inductive ConnSide where
  | src
  | dst
deriving DecidableEq, Repr

/-- The command sent by `get_keys_in_slot` (lines 189-196). -/
def get_keys_in_slot_cmd (slot : Nat) : List String :=
  ["cluster", "getkeysinslot", toString slot, "100000000"]

/-- The per-key `MIGRATE` command (lines 156-165). -/
def migrate_cmd (dst_host dst_port key : String) : List String :=
  ["migrate", dst_host, dst_port, "", "0", "5000", "keys", key]

/-- `setslot_and_migrate` (lines 110-187) as a command trace, with each
emission in the order the source performs it.  `keys` is the parsed
reply of the `get_keys_in_slot` call (line 125), which issues its
command on the source connection before anything else is sent. -/
def RedisReshardExtractor.setslot_and_migrate_trace
    (src_node dst_node : ClusterNode) (slot : Nat) (keys : List String) :
    List (ConnSide × List String) :=
  let tr : List (ConnSide × List String) :=
    [(ConnSide.src, get_keys_in_slot_cmd slot)]
  let dst_cmd := ["cluster", "setslot", toString slot, "importing",
    src_node.id]
  let src_cmd := ["cluster", "setslot", toString slot, "migrating",
    dst_node.id]
  let tr := tr ++ [(ConnSide.dst, dst_cmd)]
  let tr := tr ++ [(ConnSide.src, src_cmd)]
  let tr := keys.foldl
    (fun acc key =>
      acc ++ [(ConnSide.src, migrate_cmd dst_node.host dst_node.port key)])
    tr
  let node_cmd := ["cluster", "setslot", toString slot, "node", dst_node.id]
  let tr := tr ++ [(ConnSide.dst, node_cmd)]
  tr ++ [(ConnSide.src, node_cmd)]

/- Tokenizer lemmas. -/

lemma prefix_head?_eq {α : Type} {l₁ l₂ : List α} (h : l₁ <+: l₂)
    (hne : l₁ ≠ []) : l₁.head? = l₂.head? := by
  obtain ⟨t, rfl⟩ := h
  cases l₁ with
  | nil => exact absurd rfl hne
  | cons a l => rfl

lemma ws_false_of_head?_dropWhile {l : List Char} {a : Char}
    (h : (List.dropWhile rust_is_whitespace l).head? = some a) :
    rust_is_whitespace a = false := by
  have h2 := List.head?_dropWhile_not rust_is_whitespace l
  rw [h] at h2
  exact h2

lemma dropWhile_eq_self_of_head? {α : Type} {p : α → Bool} {l : List α}
    (h : ∀ a, l.head? = some a → p a = false) : l.dropWhile p = l := by
  cases l with
  | nil => rfl
  | cons a t => simp [List.dropWhile_cons, h a rfl]

lemma trimChars_idem (l : List Char) :
    trimChars (trimChars l) = trimChars l := by
  unfold trimChars
  have h1 : List.dropWhile rust_is_whitespace
      (List.rdropWhile rust_is_whitespace
        (List.dropWhile rust_is_whitespace l)) =
      List.rdropWhile rust_is_whitespace
        (List.dropWhile rust_is_whitespace l) := by
    apply dropWhile_eq_self_of_head?
    intro a ha
    have hne : List.rdropWhile rust_is_whitespace
        (List.dropWhile rust_is_whitespace l) ≠ [] := by
      intro hnil
      rw [hnil] at ha
      exact Option.noConfusion ha
    have hpre := List.rdropWhile_prefix rust_is_whitespace
      (List.dropWhile rust_is_whitespace l)
    rw [prefix_head?_eq hpre hne] at ha
    exact ws_false_of_head?_dropWhile ha
  rw [h1]
  exact List.rdropWhile_idempotent _ _

lemma parse_go_fuel {d : List Char} {p : List (Char × Char)} :
    ∀ (f₁ : Nat) (f₂ : Nat) (s : List Char), s.length < f₁ → s.length < f₂ →
      parse_go d p f₁ s = parse_go d p f₂ s := by
  intro f₁
  induction f₁ with
  | zero => intro f₂ s h₁ _; exact absurd h₁ (Nat.not_lt_zero _)
  | succ a ih =>
    intro f₂ s h₁ h₂
    cases f₂ with
    | zero => exact absurd h₂ (Nat.not_lt_zero _)
    | succ b =>
      cases hrt : read_token d p s with
      | none => simp [parse_go, hrt]
      | some tc =>
        obtain ⟨token, count⟩ := tc
        by_cases hlen : s.length ≤ count
        · simp [parse_go, hrt, hlen]
        · have hd₁ : (s.drop (count + 1)).length < a := by
            rw [List.length_drop]; omega
          have hd₂ : (s.drop (count + 1)).length < b := by
            rw [List.length_drop]; omega
          simp [parse_go, hrt, hlen, ih b (s.drop (count + 1)) hd₁ hd₂]

lemma parse_go_tokens_trimmed {d : List Char} {p : List (Char × Char)} :
    ∀ (fuel : Nat) (s : List Char) (toks : List (List Char)),
      parse_go d p fuel s = some toks → ∀ t ∈ toks, trimChars t = t := by
  intro fuel
  induction fuel with
  | zero => intro s toks h; simp [parse_go] at h
  | succ a ih =>
    intro s toks h
    cases hrt : read_token d p s with
    | none => simp [parse_go, hrt] at h
    | some tc =>
      obtain ⟨token, count⟩ := tc
      by_cases hlen : s.length ≤ count
      · simp [parse_go, hrt, hlen] at h
        intro t ht
        rw [← h] at ht
        rcases List.mem_singleton.mp ht with rfl
        exact trimChars_idem token
      · cases hrec : parse_go d p a (s.drop (count + 1)) with
        | none => simp [parse_go, hrt, hlen, hrec] at h
        | some ts =>
          simp [parse_go, hrt, hlen, hrec] at h
          intro t ht
          rw [← h] at ht
          rcases List.mem_cons.mp ht with rfl | hmem
          · exact trimChars_idem token
          · exact ih _ _ hrec t hmem

lemma escape_read_run (q₁ q₂ : Char) (body tail : List Char)
    (hb : q₂ ∉ body) :
    escape_read (q₁, q₂) (body ++ q₂ :: tail) true =
      (body ++ [q₂], body.length + 1) := by
  induction body with
  | nil => simp [escape_read]
  | cons b bs ih =>
    have hbq : (b == q₂) = false := by
      simp only [beq_eq_false_iff_ne]
      intro h
      exact hb (h ▸ List.mem_cons_self b bs)
    have hb2 : q₂ ∉ bs := fun h => hb (List.mem_cons_of_mem _ h)
    simp [escape_read, hbq, ih hb2]

lemma escape_token_run (q₁ q₂ : Char) (body tail : List Char)
    (hb : q₂ ∉ body) :
    read_token_with_escape (q₁ :: (body ++ q₂ :: tail)) (q₁, q₂) =
      (q₁ :: (body ++ [q₂]), body.length + 2) := by
  unfold read_token_with_escape
  simp [escape_read, escape_read_run q₁ q₂ body tail hb]

lemma regex_read_run (body tail : List Char) (hb : '#' ∉ body) :
    ∀ cnt, 2 ≤ cnt →
      regex_read (body ++ '#' :: tail) cnt =
        (body ++ ['#'], body.length + 1) := by
  induction body with
  | nil =>
    intro cnt hcnt
    have : decide (2 < cnt + 1) = true := by simp; omega
    simp [regex_read, this]
  | cons b bs ih =>
    intro cnt hcnt
    have hbh : (b == '#') = false := by
      simp only [beq_eq_false_iff_ne]
      intro h
      exact hb (h ▸ List.mem_cons_self b bs)
    have hb2 : '#' ∉ bs := fun h => hb (List.mem_cons_of_mem _ h)
    simp [regex_read, hbh, ih hb2 (cnt + 1) (by omega)]

lemma regex_token_run (body tail : List Char) (hb : '#' ∉ body) :
    read_token_with_regex_escape
        ('r' :: '#' :: (body ++ '#' :: tail)) =
      ('r' :: '#' :: (body ++ ['#']), body.length + 3) := by
  unfold read_token_with_regex_escape
  simp [regex_read, regex_read_run body tail hb 2 (le_refl 2)]

lemma parse_go_succ (d : List Char) (p : List (Char × Char)) (n : Nat)
    (s : List Char) :
    parse_go d p (n + 1) s =
      match read_token d p s with
      | none => none
      | some (token, count) =>
        if s.length ≤ count then
          some [trimChars token]
        else
          match parse_go d p n (s.drop (count + 1)) with
          | none => none
          | some ts => some (trimChars token :: ts) := rfl

lemma parse_tokens_cons (c : Char) (cs d : List Char)
    (p : List (Char × Char)) :
    parse_tokens (c :: cs) d p = parse_go d p (cs.length + 2) (c :: cs) := by
  unfold parse_tokens
  rw [if_neg (by simp)]
  rfl

lemma parse_tokens_go_of_ne {d : List Char} {p : List (Char × Char)}
    {rest : List Char} (hr : rest ≠ []) (fuel : Nat)
    (hf : rest.length < fuel) :
    parse_go d p fuel rest = parse_tokens rest d p := by
  have h2 : parse_tokens rest d p = parse_go d p (rest.length + 1) rest := by
    unfold parse_tokens
    rw [if_neg (by simpa using hr)]
  rw [h2]
  exact parse_go_fuel fuel (rest.length + 1) rest hf (Nat.lt_succ_self _)

lemma parse_quoted (q₁ q₂ c₀ : Char) (body rest d : List Char)
    (hb : q₂ ∉ body) (hr : rest ≠ []) :
    parse_tokens (q₁ :: (body ++ q₂ :: c₀ :: rest)) d [(q₁, q₂)] =
      (parse_tokens rest d [(q₁, q₂)]).map
        (fun ts => trimChars (q₁ :: (body ++ [q₂])) :: ts) := by
  have hread : read_token d [(q₁, q₂)] (q₁ :: (body ++ q₂ :: c₀ :: rest)) =
      some (q₁ :: (body ++ [q₂]), body.length + 2) := by
    show some (read_token_core d _ q₁ [(q₁, q₂)]) = _
    rw [read_token_core]
    simp only [beq_self_eq_true, if_true]
    rw [escape_token_run q₁ q₂ body (c₀ :: rest) hb]
  have hlen : (q₁ :: (body ++ q₂ :: c₀ :: rest)).length =
      body.length + 3 + rest.length := by simp; omega
  have hdrop : (q₁ :: (body ++ q₂ :: c₀ :: rest)).drop (body.length + 3) =
      rest := by
    have h : q₁ :: (body ++ q₂ :: c₀ :: rest) =
        (q₁ :: (body ++ [q₂, c₀])) ++ rest := by simp
    have hlen2 : (q₁ :: (body ++ [q₂, c₀])).length = body.length + 3 := by
      simp
    rw [h, ← hlen2, List.drop_left]
  rw [parse_tokens_cons, parse_go_succ, hread]
  simp only [hlen]
  rw [if_neg (by omega)]
  rw [show body.length + 2 + 1 = body.length + 3 from rfl, hdrop]
  rw [parse_tokens_go_of_ne hr _ (by simp; omega)]
  cases parse_tokens rest d [(q₁, q₂)] with
  | none => rfl
  | some ts => rfl

lemma parse_regex (q₁ q₂ c₀ : Char) (body rest d : List Char)
    (hq : q₁ ≠ 'r') (hb : '#' ∉ body) (hr : rest ≠ []) :
    parse_tokens ('r' :: ('#' :: (body ++ '#' :: c₀ :: rest))) d [(q₁, q₂)] =
      (parse_tokens rest d [(q₁, q₂)]).map
        (fun ts => trimChars ('r' :: '#' :: (body ++ ['#'])) :: ts) := by
  have hread : read_token d [(q₁, q₂)]
      ('r' :: ('#' :: (body ++ '#' :: c₀ :: rest))) =
      some ('r' :: '#' :: (body ++ ['#']), body.length + 3) := by
    show some (read_token_core d _ 'r' [(q₁, q₂)]) = _
    rw [read_token_core]
    have h1 : ('r' == q₁) = false := by
      simp only [beq_eq_false_iff_ne]
      exact fun h => hq h.symm
    have h2 : List.isPrefixOf ['r', '#']
        ('r' :: ('#' :: (body ++ '#' :: c₀ :: rest))) = true := by
      simp [List.isPrefixOf]
    rw [if_neg (by simp [h1]), if_pos h2]
    rw [regex_token_run body (c₀ :: rest) hb]
  have hlen : ('r' :: ('#' :: (body ++ '#' :: c₀ :: rest))).length =
      body.length + 4 + rest.length := by simp; omega
  have hdrop : ('r' :: ('#' :: (body ++ '#' :: c₀ :: rest))).drop
      (body.length + 4) = rest := by
    have h : 'r' :: ('#' :: (body ++ '#' :: c₀ :: rest)) =
        ('r' :: ('#' :: (body ++ ['#', c₀]))) ++ rest := by simp
    have hlen2 : ('r' :: ('#' :: (body ++ ['#', c₀]))).length =
        body.length + 4 := by simp
    rw [h, ← hlen2, List.drop_left]
  rw [parse_tokens_cons, parse_go_succ, hread]
  simp only [hlen]
  rw [if_neg (by omega)]
  rw [show body.length + 3 + 1 = body.length + 4 from rfl, hdrop]
  rw [parse_tokens_go_of_ne hr _ (by simp; omega)]
  cases parse_tokens rest d [(q₁, q₂)] with
  | none => rfl
  | some ts => rfl

/- ## Claim theorems -/

lemma append_unparsed_char (base u : String) :
    append_unparsed base u = if u = "" then base else base ++ " " ++ u := by
  simp [append_unparsed, String.isEmpty_iff]

/-- C1 (counterexample): the claim says `route` leaves an empty source
schema/db field empty for every variant, but for `CreateDatabase` (and
the other database/schema-level variants) the source assigns
`s.db = dst_schema` unconditionally (ddl_statement.rs lines 180-182), so
an empty `db` is overwritten with the non-empty destination. -/
theorem c1_route_counterexample :
    DdlStatement.route (.createDatabase ⟨"", false, ""⟩) "dst_db" "dst_tb" =
      .createDatabase ⟨"dst_db", false, ""⟩ ∧ ("dst_db" : String) ≠ "" := by
  exact ⟨rfl, by decide⟩

/-- C1 (amended): `route(dst_schema, dst_tb)` replaces the schema/db
field only when it is non-empty and always replaces the table field for
the ten table-level variants; for the six database/schema-level variants
it replaces the db/schema field unconditionally (even when empty); the
three rename variants, `PgAlterTableSetSchema`, the index-drop variants,
the two multi variants and `Unknown` are left unchanged. -/
theorem c1_route_amended :
    ∀ (ds dt : String),
    (∀ s, DdlStatement.route (.createDatabase s) ds dt =
      .createDatabase { s with db := ds }) ∧
    (∀ s, DdlStatement.route (.dropDatabase s) ds dt =
      .dropDatabase { s with db := ds }) ∧
    (∀ s, DdlStatement.route (.alterDatabase s) ds dt =
      .alterDatabase { s with db := ds }) ∧
    (∀ s, DdlStatement.route (.createSchema s) ds dt =
      .createSchema { s with schema := ds }) ∧
    (∀ s, DdlStatement.route (.dropSchema s) ds dt =
      .dropSchema { s with schema := ds }) ∧
    (∀ s, DdlStatement.route (.alterSchema s) ds dt =
      .alterSchema { s with schema := ds }) ∧
    (∀ s, DdlStatement.route (.mysqlCreateTable s) ds dt =
      .mysqlCreateTable
        { s with db := if s.db = "" then s.db else ds, tb := dt }) ∧
    (∀ s, DdlStatement.route (.mysqlAlterTable s) ds dt =
      .mysqlAlterTable
        { s with db := if s.db = "" then s.db else ds, tb := dt }) ∧
    (∀ s, DdlStatement.route (.mysqlTruncateTable s) ds dt =
      .mysqlTruncateTable
        { s with db := if s.db = "" then s.db else ds, tb := dt }) ∧
    (∀ s, DdlStatement.route (.mysqlCreateIndex s) ds dt =
      .mysqlCreateIndex
        { s with db := if s.db = "" then s.db else ds, tb := dt }) ∧
    (∀ s, DdlStatement.route (.mysqlDropIndex s) ds dt =
      .mysqlDropIndex
        { s with db := if s.db = "" then s.db else ds, tb := dt }) ∧
    (∀ s, DdlStatement.route (.pgCreateTable s) ds dt =
      .pgCreateTable
        { s with schema := if s.schema = "" then s.schema else ds,
                 tb := dt }) ∧
    (∀ s, DdlStatement.route (.pgAlterTable s) ds dt =
      .pgAlterTable
        { s with schema := if s.schema = "" then s.schema else ds,
                 tb := dt }) ∧
    (∀ s, DdlStatement.route (.pgTruncateTable s) ds dt =
      .pgTruncateTable
        { s with schema := if s.schema = "" then s.schema else ds,
                 tb := dt }) ∧
    (∀ s, DdlStatement.route (.pgCreateIndex s) ds dt =
      .pgCreateIndex
        { s with schema := if s.schema = "" then s.schema else ds,
                 tb := dt }) ∧
    (∀ s, DdlStatement.route (.dropTable s) ds dt =
      .dropTable
        { s with schema := if s.schema = "" then s.schema else ds,
                 tb := dt }) ∧
    (∀ s, DdlStatement.route (.renameTable s) ds dt = .renameTable s) ∧
    (∀ s, DdlStatement.route (.mysqlAlterTableRename s) ds dt =
      .mysqlAlterTableRename s) ∧
    (∀ s, DdlStatement.route (.pgAlterTableRename s) ds dt =
      .pgAlterTableRename s) ∧
    (∀ s, DdlStatement.route (.pgAlterTableSetSchema s) ds dt =
      .pgAlterTableSetSchema s) ∧
    (∀ s, DdlStatement.route (.pgDropIndex s) ds dt = .pgDropIndex s) ∧
    (∀ s, DdlStatement.route (.pgDropMultiIndex s) ds dt =
      .pgDropMultiIndex s) ∧
    (∀ s, DdlStatement.route (.dropMultiTable s) ds dt =
      .dropMultiTable s) ∧
    (∀ s, DdlStatement.route (.renameMultiTable s) ds dt =
      .renameMultiTable s) ∧
    DdlStatement.route .unknown ds dt = .unknown := by
  intro ds dt
  refine ⟨fun s => rfl, fun s => rfl, fun s => rfl, fun s => rfl,
    fun s => rfl, fun s => rfl, ?_, ?_, ?_, ?_, ?_, ?_, ?_, ?_, ?_, ?_,
    fun s => rfl, fun s => rfl, fun s => rfl, fun s => rfl, fun s => rfl,
    fun s => rfl, fun s => rfl, fun s => rfl, rfl⟩ <;>
  · intro s
    simp [DdlStatement.route, String.isEmpty_iff]

/-- C2 (counterexample): the claim says every variant's `to_sql` appends
a non-empty `unparsed` tail after one space, but
`RenameMultiTableStatement::to_sql` (ddl_statement.rs lines 901-915)
returns without appending it, and `RenameTable` delegates there:
reconstructing RENAME TABLE a.b TO c.d with `unparsed = "X"` yields a
string that neither mentions the tail nor changes when the tail is
dropped. -/
theorem c2_to_sql_counterexample :
    DdlStatement.to_sql (.renameTable ⟨"a", "b", "c", "d", "X"⟩)
        DbType.mysql = "RENAME TABLE `a`.`b` TO `c`.`d`" ∧
    (" X".toList.isSuffixOf
      ("RENAME TABLE `a`.`b` TO `c`.`d`").toList) = false ∧
    DdlStatement.to_sql (.renameTable ⟨"a", "b", "c", "d", "X"⟩)
        DbType.mysql =
      DdlStatement.to_sql (.renameTable ⟨"a", "b", "c", "d", ""⟩)
        DbType.mysql ∧
    ("X" : String) ≠ "" := by
  refine ⟨by decide, by decide, rfl, by decide⟩

/-- C2 (amended): for every variant except `RenameTable` and
`RenameMultiTable`, `to_sql` equals the reconstruction with the tail
removed, followed — when `unparsed` is non-empty — by exactly one space
and the tail; the two rename variants ignore `unparsed` entirely. -/
theorem c2_to_sql_unparsed_amended :
    ∀ (db_type : DbType),
    (∀ s : CreateDatabaseStatement,
      DdlStatement.to_sql (.createDatabase s) db_type =
        if s.unparsed = "" then
          DdlStatement.to_sql (.createDatabase { s with unparsed := "" })
            db_type
        else
          DdlStatement.to_sql (.createDatabase { s with unparsed := "" })
            db_type ++ " " ++ s.unparsed) ∧
    (∀ s : DropDatabaseStatement,
      DdlStatement.to_sql (.dropDatabase s) db_type =
        if s.unparsed = "" then
          DdlStatement.to_sql (.dropDatabase { s with unparsed := "" })
            db_type
        else
          DdlStatement.to_sql (.dropDatabase { s with unparsed := "" })
            db_type ++ " " ++ s.unparsed) ∧
    (∀ s : AlterDatabaseStatement,
      DdlStatement.to_sql (.alterDatabase s) db_type =
        if s.unparsed = "" then
          DdlStatement.to_sql (.alterDatabase { s with unparsed := "" })
            db_type
        else
          DdlStatement.to_sql (.alterDatabase { s with unparsed := "" })
            db_type ++ " " ++ s.unparsed) ∧
    (∀ s : CreateSchemaStatement,
      DdlStatement.to_sql (.createSchema s) db_type =
        if s.unparsed = "" then
          DdlStatement.to_sql (.createSchema { s with unparsed := "" })
            db_type
        else
          DdlStatement.to_sql (.createSchema { s with unparsed := "" })
            db_type ++ " " ++ s.unparsed) ∧
    (∀ s : DropSchemaStatement,
      DdlStatement.to_sql (.dropSchema s) db_type =
        if s.unparsed = "" then
          DdlStatement.to_sql (.dropSchema { s with unparsed := "" }) db_type
        else
          DdlStatement.to_sql (.dropSchema { s with unparsed := "" })
            db_type ++ " " ++ s.unparsed) ∧
    (∀ s : AlterSchemaStatement,
      DdlStatement.to_sql (.alterSchema s) db_type =
        if s.unparsed = "" then
          DdlStatement.to_sql (.alterSchema { s with unparsed := "" }) db_type
        else
          DdlStatement.to_sql (.alterSchema { s with unparsed := "" })
            db_type ++ " " ++ s.unparsed) ∧
    (∀ s : MysqlCreateTableStatement,
      DdlStatement.to_sql (.mysqlCreateTable s) db_type =
        if s.unparsed = "" then
          DdlStatement.to_sql (.mysqlCreateTable { s with unparsed := "" })
            db_type
        else
          DdlStatement.to_sql (.mysqlCreateTable { s with unparsed := "" })
            db_type ++ " " ++ s.unparsed) ∧
    (∀ s : PgCreateTableStatement,
      DdlStatement.to_sql (.pgCreateTable s) db_type =
        if s.unparsed = "" then
          DdlStatement.to_sql (.pgCreateTable { s with unparsed := "" })
            db_type
        else
          DdlStatement.to_sql (.pgCreateTable { s with unparsed := "" })
            db_type ++ " " ++ s.unparsed) ∧
    (∀ s : DropMultiTableStatement,
      DdlStatement.to_sql (.dropMultiTable s) db_type =
        if s.unparsed = "" then
          DdlStatement.to_sql (.dropMultiTable { s with unparsed := "" })
            db_type
        else
          DdlStatement.to_sql (.dropMultiTable { s with unparsed := "" })
            db_type ++ " " ++ s.unparsed) ∧
    (∀ s : DropTableStatement,
      DdlStatement.to_sql (.dropTable s) db_type =
        if s.unparsed = "" then
          DdlStatement.to_sql (.dropTable { s with unparsed := "" }) db_type
        else
          DdlStatement.to_sql (.dropTable { s with unparsed := "" })
            db_type ++ " " ++ s.unparsed) ∧
    (∀ s : MysqlTruncateTableStatement,
      DdlStatement.to_sql (.mysqlTruncateTable s) db_type =
        if s.unparsed = "" then
          DdlStatement.to_sql (.mysqlTruncateTable { s with unparsed := "" })
            db_type
        else
          DdlStatement.to_sql (.mysqlTruncateTable { s with unparsed := "" })
            db_type ++ " " ++ s.unparsed) ∧
    (∀ s : PgTruncateTableStatement,
      DdlStatement.to_sql (.pgTruncateTable s) db_type =
        if s.unparsed = "" then
          DdlStatement.to_sql (.pgTruncateTable { s with unparsed := "" })
            db_type
        else
          DdlStatement.to_sql (.pgTruncateTable { s with unparsed := "" })
            db_type ++ " " ++ s.unparsed) ∧
    (∀ s : MysqlAlterTableStatement,
      DdlStatement.to_sql (.mysqlAlterTable s) db_type =
        if s.unparsed = "" then
          DdlStatement.to_sql (.mysqlAlterTable { s with unparsed := "" })
            db_type
        else
          DdlStatement.to_sql (.mysqlAlterTable { s with unparsed := "" })
            db_type ++ " " ++ s.unparsed) ∧
    (∀ s : MysqlAlterTableRenameStatement,
      DdlStatement.to_sql (.mysqlAlterTableRename s) db_type =
        if s.unparsed = "" then
          DdlStatement.to_sql
            (.mysqlAlterTableRename { s with unparsed := "" }) db_type
        else
          DdlStatement.to_sql
            (.mysqlAlterTableRename { s with unparsed := "" }) db_type ++
            " " ++ s.unparsed) ∧
    (∀ s : PgAlterTableStatement,
      DdlStatement.to_sql (.pgAlterTable s) db_type =
        if s.unparsed = "" then
          DdlStatement.to_sql (.pgAlterTable { s with unparsed := "" })
            db_type
        else
          DdlStatement.to_sql (.pgAlterTable { s with unparsed := "" })
            db_type ++ " " ++ s.unparsed) ∧
    (∀ s : PgAlterTableRenameStatement,
      DdlStatement.to_sql (.pgAlterTableRename s) db_type =
        if s.unparsed = "" then
          DdlStatement.to_sql (.pgAlterTableRename { s with unparsed := "" })
            db_type
        else
          DdlStatement.to_sql (.pgAlterTableRename { s with unparsed := "" })
            db_type ++ " " ++ s.unparsed) ∧
    (∀ s : PgAlterTableSetSchemaStatement,
      DdlStatement.to_sql (.pgAlterTableSetSchema s) db_type =
        if s.unparsed = "" then
          DdlStatement.to_sql
            (.pgAlterTableSetSchema { s with unparsed := "" }) db_type
        else
          DdlStatement.to_sql
            (.pgAlterTableSetSchema { s with unparsed := "" }) db_type ++
            " " ++ s.unparsed) ∧
    (∀ s : MysqlCreateIndexStatement,
      DdlStatement.to_sql (.mysqlCreateIndex s) db_type =
        if s.unparsed = "" then
          DdlStatement.to_sql (.mysqlCreateIndex { s with unparsed := "" })
            db_type
        else
          DdlStatement.to_sql (.mysqlCreateIndex { s with unparsed := "" })
            db_type ++ " " ++ s.unparsed) ∧
    (∀ s : PgCreateIndexStatement,
      DdlStatement.to_sql (.pgCreateIndex s) db_type =
        if s.unparsed = "" then
          DdlStatement.to_sql (.pgCreateIndex { s with unparsed := "" })
            db_type
        else
          DdlStatement.to_sql (.pgCreateIndex { s with unparsed := "" })
            db_type ++ " " ++ s.unparsed) ∧
    (∀ s : MysqlDropIndexStatement,
      DdlStatement.to_sql (.mysqlDropIndex s) db_type =
        if s.unparsed = "" then
          DdlStatement.to_sql (.mysqlDropIndex { s with unparsed := "" })
            db_type
        else
          DdlStatement.to_sql (.mysqlDropIndex { s with unparsed := "" })
            db_type ++ " " ++ s.unparsed) ∧
    (∀ s : PgDropMultiIndexStatement,
      DdlStatement.to_sql (.pgDropMultiIndex s) db_type =
        if s.unparsed = "" then
          DdlStatement.to_sql (.pgDropMultiIndex { s with unparsed := "" })
            db_type
        else
          DdlStatement.to_sql (.pgDropMultiIndex { s with unparsed := "" })
            db_type ++ " " ++ s.unparsed) ∧
    (∀ s : PgDropIndexStatement,
      DdlStatement.to_sql (.pgDropIndex s) db_type =
        if s.unparsed = "" then
          DdlStatement.to_sql (.pgDropIndex { s with unparsed := "" })
            db_type
        else
          DdlStatement.to_sql (.pgDropIndex { s with unparsed := "" })
            db_type ++ " " ++ s.unparsed) ∧
    (∀ s : RenameTableStatement,
      DdlStatement.to_sql (.renameTable s) db_type =
        DdlStatement.to_sql (.renameTable { s with unparsed := "" })
          db_type) ∧
    (∀ s : RenameMultiTableStatement,
      DdlStatement.to_sql (.renameMultiTable s) db_type =
        DdlStatement.to_sql (.renameMultiTable { s with unparsed := "" })
          db_type) := by
  intro db_type
  refine ⟨?_, ?_, ?_, ?_, ?_, ?_, ?_, ?_, ?_, ?_, ?_, ?_, ?_, ?_, ?_, ?_,
    ?_, ?_, ?_, ?_, ?_, ?_, fun s => rfl, fun s => rfl⟩ <;>
  · intro s
    simp only [DdlStatement.to_sql, DropMultiTableStatement.to_sql,
      PgDropMultiIndexStatement.to_sql, append_unparsed_char]
    by_cases h : s.unparsed = "" <;> simp [h]

/-- C3 (confirmed): on every batch send the warehouse sinker sets
`sync_timestamp = max(now_ms, sync_timestamp + 1)` (line 100), so the
timestamp of a batch is strictly above the previous one regardless of
the wall clock values. -/
theorem c3_sync_timestamp_strictly_increases :
    ∀ (db_type : DbType) (hard_delete : Bool) (sync_ts now₁ now₂ : Int)
      (rts₁ rts₂ : List RowType) (sc₁ sc₂ : Bool),
      (StarRocksSinker.send_data_model db_type hard_delete sync_ts now₁
        rts₁ sc₁).1 = max now₁ (sync_ts + 1) ∧
      sync_ts <
        (StarRocksSinker.send_data_model db_type hard_delete sync_ts now₁
          rts₁ sc₁).1 ∧
      (StarRocksSinker.send_data_model db_type hard_delete sync_ts now₁
          rts₁ sc₁).1 <
        (StarRocksSinker.send_data_model db_type hard_delete
          (StarRocksSinker.send_data_model db_type hard_delete sync_ts now₁
            rts₁ sc₁).1 now₂ rts₂ sc₂).1 := by
  intro db_type hard_delete sync_ts now₁ now₂ rts₁ rts₂ sc₁ sc₂
  have key : ∀ a b : Int, b < max a (b + 1) :=
    fun a b => lt_of_lt_of_le (by omega) (le_max_right a (b + 1))
  exact ⟨rfl, key now₁ sync_ts, key now₂ _⟩

/-- C4 (counterexample): the claim makes the delete header equivalent to
"entire batch is Delete and the table has no sign column", but the
source (lines 132-144) checks the sign column only for StarRocks — and
there also honours the `hard_delete` flag: a Doris all-Delete batch on a
table *with* the sign column still gets `merge_type: delete`, and a
StarRocks Delete batch with `hard_delete = true` still gets
`columns: __op='delete'` although the sign column exists. -/
theorem c4_delete_header_counterexample :
    (∀ rt ∈ [RowType.delete, RowType.delete], rt = RowType.delete) ∧
    ("merge_type", "delete") ∈
      (StarRocksSinker.send_data_model DbType.doris false 0 0
        [RowType.delete, RowType.delete] true).2.2 ∧
    ("columns", "__op=\x27delete\x27") ∈
      (StarRocksSinker.send_data_model DbType.starrocks true 0 0
        [RowType.delete] true).2.2 := by
  refine ⟨by decide, by decide, by decide⟩

/-- C4 (amended): the delete header is set iff the leading row of the
batch is a Delete and, for StarRocks, additionally the `hard_delete`
flag is set or the table meta lacks the `_ape_dts_is_deleted` sign
column; for Doris the leading Delete alone decides; other dialects never
get a delete header. -/
theorem c4_delete_header_amended :
    ∀ (db_type : DbType) (hard_delete : Bool) (sync_ts now : Int)
      (row_types : List RowType) (sc : Bool),
      ((("columns", "__op=\x27delete\x27") ∈
          (StarRocksSinker.send_data_model db_type hard_delete sync_ts now
            row_types sc).2.2) ↔
        (db_type = DbType.starrocks ∧
          row_types.headD RowType.insert = RowType.delete ∧
          (hard_delete = true ∨ sc = false))) ∧
      ((("merge_type", "delete") ∈
          (StarRocksSinker.send_data_model db_type hard_delete sync_ts now
            row_types sc).2.2) ↔
        (db_type = DbType.doris ∧
          row_types.headD RowType.insert = RowType.delete)) := by
  intro db_type hard_delete sync_ts now row_types sc
  simp only [StarRocksSinker.send_data_model, StarRocksSinker.compute_op,
    StarRocksSinker.build_request_headers, next_sync_timestamp,
    List.headD_eq_head?_getD]
  generalize row_types.head?.getD RowType.insert = frt
  cases db_type <;> cases hard_delete <;> cases sc <;> cases frt <;> decide

/-- C7 (counterexample): the claim says both JSON encoders render Bit,
Enum and Set as JSON numbers; the generic encoder does, but the
CloudCanal converter (cloudcanal_converter.rs lines 218-221) renders all
three through `Value::String(v.to_string())`: `Bit(5)` becomes the JSON
string "5", not a number. -/
theorem c7_vendor_numeric_counterexample :
    CloudCanalConverter.col_value_to_json_value
        ⟨fun _ => Option.none, fun _ => Option.none, fun _ => ""⟩
        (ColValue.bit 5) = JValue.jstr "5" ∧
    (CloudCanalConverter.col_value_to_json_value
        ⟨fun _ => Option.none, fun _ => Option.none, fun _ => ""⟩
        (ColValue.bit 5)).isNumber = false := by
  exact ⟨rfl, rfl⟩

/-- C7 (amended): the generic JSON encoder renders Bit, Enum and Set as
JSON numbers (json_converter.rs lines 132-135); the vendor
(CloudCanal) encoder renders the same three variants as JSON strings
holding the decimal value (cloudcanal_converter.rs lines 218-221). -/
theorem c7_bit_enum_set_amended :
    ∀ (ext : ExtLib) (n m k : Nat),
      JsonConverter.col_value_to_json_value ext (ColValue.bit n) =
        JValue.jnum n ∧
      JsonConverter.col_value_to_json_value ext (ColValue.enum m) =
        JValue.jnum m ∧
      JsonConverter.col_value_to_json_value ext (ColValue.set k) =
        JValue.jnum k ∧
      CloudCanalConverter.col_value_to_json_value ext (ColValue.bit n) =
        JValue.jstr (toString n) ∧
      CloudCanalConverter.col_value_to_json_value ext (ColValue.enum m) =
        JValue.jstr (toString m) ∧
      CloudCanalConverter.col_value_to_json_value ext (ColValue.set k) =
        JValue.jstr (toString k) := by
  intro ext n m k
  exact ⟨rfl, rfl, rfl, rfl, rfl, rfl⟩

lemma foldl_emit_eq_map {α β : Type} (f : α → β) :
    ∀ (l : List α) (acc : List β),
      l.foldl (fun a x => a ++ [f x]) acc = acc ++ l.map f := by
  intro l
  induction l with
  | nil => intro acc; simp
  | cons x xs ih =>
    intro acc
    rw [List.foldl_cons, ih (acc ++ [f x]), List.map_cons,
      List.append_assoc]
    rfl

/-- C8 (counterexample): the claim says the per-slot sequence starts
with the two `CLUSTER SETSLOT` IMPORTING/MIGRATING commands and
enumerates the keys afterwards; in the source (lines 125 and 144-145)
`get_keys_in_slot` issues `CLUSTER GETKEYSINSLOT` on the source
connection *before* either `SETSLOT` command is sent, so the first
command of the trace is the key enumeration. -/
theorem c8_reshard_order_counterexample :
    (RedisReshardExtractor.setslot_and_migrate_trace
        ⟨"idA", "hA", "pA", "aA", []⟩ ⟨"idB", "hB", "pB", "aB", []⟩ 5
        ["k1"]).head? =
      some (ConnSide.src, ["cluster", "getkeysinslot", "5", "100000000"]) ∧
    ("getkeysinslot" : String) ≠ "setslot" := by
  refine ⟨by rfl, by decide⟩

/-- C8 (amended): per slot the command sequence is: `CLUSTER
GETKEYSINSLOT <s> 100000000` on the source, then `CLUSTER SETSLOT <s>
IMPORTING <src_id>` on the destination and `CLUSTER SETSLOT <s>
MIGRATING <dst_id>` on the source, then one `MIGRATE` per key on the
source, and finally `CLUSTER SETSLOT <s> NODE <dst_id>` on the
destination and then on the source. -/
theorem c8_reshard_trace_amended :
    ∀ (src_node dst_node : ClusterNode) (slot : Nat) (keys : List String),
      RedisReshardExtractor.setslot_and_migrate_trace src_node dst_node
          slot keys =
        (ConnSide.src, get_keys_in_slot_cmd slot) ::
        (ConnSide.dst, ["cluster", "setslot", toString slot, "importing",
          src_node.id]) ::
        (ConnSide.src, ["cluster", "setslot", toString slot, "migrating",
          dst_node.id]) ::
        (keys.map (fun key =>
          (ConnSide.src, migrate_cmd dst_node.host dst_node.port key)) ++
         [(ConnSide.dst, ["cluster", "setslot", toString slot, "node",
            dst_node.id]),
          (ConnSide.src, ["cluster", "setslot", toString slot, "node",
            dst_node.id])]) := by
  intro src_node dst_node slot keys
  simp only [RedisReshardExtractor.setslot_and_migrate_trace,
    foldl_emit_eq_map]
  simp

/-- C9 (confirmed): the row-partition drain keeps only Dml and Commit
items; a Ddl or Raw item popped from the queue is dropped by the
wildcard arm (partition_parallelizer.rs line 55) and never appears in
the returned batch. -/
theorem c9_drain_keeps_only_dml_and_commit :
    ∀ (parallel_size : Nat) (f : RowData → Bool) (items : List DtData),
      (∀ d ∈ PartitionParallelizer.drain parallel_size f items,
        (∃ rd, d = DtData.dml rd) ∨ d = DtData.commit) ∧
      DtData.ddl ∉ PartitionParallelizer.drain parallel_size f items ∧
      DtData.raw ∉ PartitionParallelizer.drain parallel_size f items := by
  intro ps f items
  have main : ∀ d ∈ PartitionParallelizer.drain ps f items,
      (∃ rd, d = DtData.dml rd) ∨ d = DtData.commit := by
    induction items with
    | nil => intro d hd; simp [PartitionParallelizer.drain] at hd
    | cons it rest ih =>
      intro d hd
      cases it with
      | dml rd =>
        simp only [PartitionParallelizer.drain] at hd
        by_cases hc : 1 < ps ∧ f rd = false
        · rw [if_pos hc] at hd
          rcases List.mem_singleton.mp hd with rfl
          exact Or.inl ⟨rd, rfl⟩
        · rw [if_neg hc] at hd
          rcases List.mem_cons.mp hd with rfl | hmem
          · exact Or.inl ⟨rd, rfl⟩
          · exact ih d hmem
      | commit =>
        simp only [PartitionParallelizer.drain] at hd
        rcases List.mem_cons.mp hd with rfl | hmem
        · exact Or.inr rfl
        · exact ih d hmem
      | ddl =>
        simp only [PartitionParallelizer.drain] at hd
        exact ih d hd
      | raw =>
        simp only [PartitionParallelizer.drain] at hd
        exact ih d hd
  refine ⟨main, fun h => ?_, fun h => ?_⟩
  · rcases main _ h with ⟨rd, hh⟩ | hh <;> exact DtData.noConfusion hh
  · rcases main _ h with ⟨rd, hh⟩ | hh <;> exact DtData.noConfusion hh

/-- Witness for C9 at a concrete queue: a Ddl, a Dml and a Raw item with
`parallel_size = 1`. -/
theorem c9_drain_keeps_only_dml_and_commit_witness :
    (∃ rd, DtData.dml ⟨"s", "t", RowType.insert, Option.none, Option.none,
        0⟩ = DtData.dml rd) ∨
      DtData.dml ⟨"s", "t", RowType.insert, Option.none, Option.none, 0⟩ =
        DtData.commit :=
  (c9_drain_keeps_only_dml_and_commit 1 (fun _ => true)
      [DtData.ddl,
       DtData.dml ⟨"s", "t", RowType.insert, Option.none, Option.none, 0⟩,
       DtData.raw]).1
    (DtData.dml ⟨"s", "t", RowType.insert, Option.none, Option.none, 0⟩)
    (by simp [PartitionParallelizer.drain])

/-- C10 (confirmed): `row_data_to_json_key` of both JSON encoders looks
primary-key values up in `row_data.after` only (json_converter.rs line
41, cloudcanal_converter.rs line 42); for a Delete event, whose after
image is `None`, every lookup fails, so with available meta and an
existing "primary" key the returned key is the empty JSON array "[]" —
not the row's key values and not the `{schema}_{tb}` fallback. -/
theorem c10_delete_key_is_empty_array :
    ∀ (ext : ExtLib) (mm : RdbMetaManager) (rd : RowData)
      (tbm : RdbTbMeta) (pks : List String),
      rd.row_type = RowType.delete →
      rd.after = Option.none →
      mm rd.schema rd.tb = some tbm →
      tbm.key_map.lookup "primary" = some pks →
      JsonConverter.row_data_to_json_key ext (some mm) rd = "[]" ∧
      CloudCanalConverter.row_data_to_json_key ext (some mm) rd = "[]" := by
  intro ext mm rd tbm pks _hdel hafter hmm hpk
  constructor
  · unfold JsonConverter.row_data_to_json_key
    dsimp only
    simp only [hmm, hpk, hafter, JValue.render]
    rw [show (List.filterMap (fun pk_col =>
      Option.map (JsonConverter.col_value_to_json_value ext)
        ((Option.none : Option (List (String × ColValue))).bind
          (fun after => List.lookup pk_col after))) pks) = [] from
      List.filterMap_eq_nil_iff.mpr (fun a _ => rfl)]
    rfl
  · unfold CloudCanalConverter.row_data_to_json_key
    dsimp only
    simp only [hmm, hpk, hafter, JValue.render]
    rw [show (List.filterMap (fun pk_col =>
      Option.map (CloudCanalConverter.col_value_to_json_value ext)
        ((Option.none : Option (List (String × ColValue))).bind
          (fun after => List.lookup pk_col after))) pks) = [] from
      List.filterMap_eq_nil_iff.mpr (fun a _ => rfl)]
    rfl

/-- Witness for C10 at a concrete Delete row and a concrete meta view
with primary key ["id"]. -/
theorem c10_delete_key_is_empty_array_witness :
    JsonConverter.row_data_to_json_key
        ⟨fun _ => Option.none, fun _ => Option.none, fun _ => ""⟩
        (some (fun _ _ => some ⟨[("primary", ["id"])]⟩))
        ⟨"db1", "tb1", RowType.delete,
          some [("id", ColValue.long 7)], Option.none, 0⟩ = "[]" ∧
    CloudCanalConverter.row_data_to_json_key
        ⟨fun _ => Option.none, fun _ => Option.none, fun _ => ""⟩
        (some (fun _ _ => some ⟨[("primary", ["id"])]⟩))
        ⟨"db1", "tb1", RowType.delete,
          some [("id", ColValue.long 7)], Option.none, 0⟩ = "[]" :=
  c10_delete_key_is_empty_array
    ⟨fun _ => Option.none, fun _ => Option.none, fun _ => ""⟩
    (fun _ _ => some ⟨[("primary", ["id"])]⟩)
    ⟨"db1", "tb1", RowType.delete, some [("id", ColValue.long 7)],
      Option.none, 0⟩
    ⟨[("primary", ["id"])]⟩ ["id"] rfl rfl rfl rfl

lemma dispatch_mixed_error (snm : Nat → String) (nsim : String → Nat) :
    ∀ (data : List RedisEntry) (buckets : List (List RedisEntry)),
      (∃ e ∈ data, ∃ s₁ ∈ e.slots, ∃ s₂ ∈ e.slots, s₁ ≠ s₂) →
      ∃ msg, RedisParallelizer.dispatch_loop snm nsim data buckets =
        .error (.redisCmdError msg) := by
  intro data
  induction data with
  | nil =>
    intro buckets h
    obtain ⟨e, he, _⟩ := h
    exact absurd he (List.not_mem_nil e)
  | cons e rest ih =>
    intro buckets h
    by_cases hmix : ∃ s₁ ∈ e.slots, ∃ s₂ ∈ e.slots, s₁ ≠ s₂
    · obtain ⟨s₁, hs₁, s₂, hs₂, hne⟩ := hmix
      cases hslots : e.slots with
      | nil => rw [hslots] at hs₁; exact absurd hs₁ (List.not_mem_nil _)
      | cons s0 srest =>
        have key : ∃ u ∈ srest, u ≠ s0 := by
          rw [hslots] at hs₁ hs₂
          rcases List.mem_cons.mp hs₁ with h1 | h1 <;>
            rcases List.mem_cons.mp hs₂ with h2 | h2
          · exact absurd (h1.trans h2.symm) hne
          · exact ⟨s₂, h2, fun hc => hne (h1.trans hc.symm)⟩
          · exact ⟨s₁, h1, fun hc => hne (hc.trans h2.symm)⟩
          · by_cases hc : s₁ = s0
            · exact ⟨s₂, h2, fun h2c => hne (hc.trans h2c.symm)⟩
            · exact ⟨s₁, h1, hc⟩
        have hany : (srest.any (fun s => s ≠ s0)) = true := by
          rw [List.any_eq_true]
          obtain ⟨u, hu, hune⟩ := key
          exact ⟨u, hu, by simpa using hune⟩
        refine ⟨"multi keys don\x27t hash to the same slot, cmd: " ++
          e.cmd, ?_⟩
        simp only [RedisParallelizer.dispatch_loop]
        rw [hslots]
        dsimp only
        rw [if_pos hany]
    · obtain ⟨e2, he2, hw⟩ := h
      rcases List.mem_cons.mp he2 with rfl | hrest
      · exact absurd hw hmix
      · cases hslots : e.slots with
        | nil =>
          obtain ⟨msg, hmsg⟩ := ih (buckets.map (fun b => b ++ [e]))
            ⟨e2, hrest, hw⟩
          refine ⟨msg, ?_⟩
          simp only [RedisParallelizer.dispatch_loop]
          rw [hslots]
          exact hmsg
        | cons s0 srest =>
          have hnoany : (srest.any (fun s => s ≠ s0)) = false := by
            cases hval : srest.any (fun s => s ≠ s0) with
            | false => rfl
            | true =>
              rw [List.any_eq_true] at hval
              obtain ⟨u, hu, hup⟩ := hval
              have hune : u ≠ s0 := by simpa using hup
              exact absurd
                ⟨s0, by rw [hslots]; exact List.mem_cons_self _ _,
                  u, by rw [hslots]; exact List.mem_cons_of_mem _ hu,
                  fun hc => hune hc.symm⟩ hmix
          obtain ⟨msg, hmsg⟩ := ih (buckets.set (nsim (snm s0))
            ((buckets.getD (nsim (snm s0)) []) ++ [e])) ⟨e2, hrest, hw⟩
          refine ⟨msg, ?_⟩
          simp only [RedisParallelizer.dispatch_loop]
          rw [hslots]
          dsimp only
          rw [if_neg (by rw [hnoany]; exact Bool.false_ne_true)]
          exact hmsg

lemma dispatch_loop_char (snm : Nat → String) (nsim : String → Nat) :
    ∀ (data : List RedisEntry) (buckets : List (List RedisEntry)),
      (∀ e ∈ data, ∀ s₁ ∈ e.slots, ∀ s₂ ∈ e.slots, s₁ = s₂) →
      (∀ e ∈ data, ∀ s0 srest, e.slots = s0 :: srest →
        nsim (snm s0) < buckets.length) →
      ∃ buckets2,
        RedisParallelizer.dispatch_loop snm nsim data buckets =
          .ok buckets2 ∧
        buckets2.length = buckets.length ∧
        ∀ j, j < buckets.length →
          buckets2.getD j [] = buckets.getD j [] ++
            data.filter (fun e =>
              match e.slots with
              | [] => true
              | s0 :: _ => nsim (snm s0) == j) := by
  intro data
  induction data with
  | nil =>
    intro buckets _ _
    exact ⟨buckets, rfl, rfl, by simp⟩
  | cons e rest ih =>
    intro buckets huni hrange
    have huni2 : ∀ x ∈ rest, ∀ s₁ ∈ x.slots, ∀ s₂ ∈ x.slots, s₁ = s₂ :=
      fun x hx => huni x (List.mem_cons_of_mem _ hx)
    cases hslots : e.slots with
    | nil =>
      obtain ⟨b2, hok, hlen, hchar⟩ :=
        ih (buckets.map (fun b => b ++ [e])) huni2 (by
          intro x hx s0 srest hs
          rw [List.length_map]
          exact hrange x (List.mem_cons_of_mem _ hx) s0 srest hs)
      refine ⟨b2, ?_, by rw [hlen, List.length_map], ?_⟩
      · simp only [RedisParallelizer.dispatch_loop]
        rw [hslots]
        exact hok
      · intro j hj
        rw [hchar j (by rw [List.length_map]; exact hj)]
        have hmap : (buckets.map (fun b => b ++ [e])).getD j [] =
            buckets.getD j [] ++ [e] := by
          simp only [List.getD_eq_getElem?_getD, List.getElem?_map]
          rw [List.getElem?_eq_getElem hj]
          rfl
        rw [hmap]
        simp only [List.filter_cons, hslots]
        simp [List.append_assoc]
    | cons s0 srest =>
      have hidx : nsim (snm s0) < buckets.length :=
        hrange e (List.mem_cons_self _ _) s0 srest hslots
      have hnoany : (srest.any (fun s => s ≠ s0)) = false := by
        cases hval : srest.any (fun s => s ≠ s0) with
        | false => rfl
        | true =>
          rw [List.any_eq_true] at hval
          obtain ⟨u, hu, hup⟩ := hval
          have hune : u ≠ s0 := by simpa using hup
          exact absurd (huni e (List.mem_cons_self _ _) u
            (by rw [hslots]; exact List.mem_cons_of_mem _ hu) s0
            (by rw [hslots]; exact List.mem_cons_self _ _)) hune
      obtain ⟨b2, hok, hlen, hchar⟩ := ih
        (buckets.set (nsim (snm s0))
          ((buckets.getD (nsim (snm s0)) []) ++ [e]))
        huni2 (by
          intro x hx s0' srest' hs
          rw [List.length_set]
          exact hrange x (List.mem_cons_of_mem _ hx) s0' srest' hs)
      refine ⟨b2, ?_, by rw [hlen, List.length_set], ?_⟩
      · simp only [RedisParallelizer.dispatch_loop]
        rw [hslots]
        dsimp only
        rw [if_neg (by rw [hnoany]; exact Bool.false_ne_true)]
        exact hok
      · intro j hj
        rw [hchar j (by rw [List.length_set]; exact hj)]
        simp only [List.filter_cons, hslots]
        by_cases hje : nsim (snm s0) = j
        · have hset : (buckets.set (nsim (snm s0))
              ((buckets.getD (nsim (snm s0)) []) ++ [e])).getD j [] =
              buckets.getD j [] ++ [e] := by
            subst hje
            simp [List.getD_eq_getElem?_getD, List.getElem?_set_self hidx]
          rw [hset]
          have hbeq : (nsim (snm s0) == j) = true := by simp [hje]
          rw [hbeq]
          simp [List.append_assoc]
        · have hset : (buckets.set (nsim (snm s0))
              ((buckets.getD (nsim (snm s0)) []) ++ [e])).getD j [] =
              buckets.getD j [] := by
            simp only [List.getD_eq_getElem?_getD]
            rw [List.getElem?_set_ne hje]
          rw [hset]
          have hbeq : (nsim (snm s0) == j) = false := by simp [hje]
          rw [hbeq]
          simp

/-- C5 (confirmed): in the cluster-slot dispatch, (i) any event whose
keys resolve to two different slots fails the whole call with a
`RedisCmdError`; when the call returns buckets, (ii) an event with no
key appears in every sinker's bucket exactly as often as in the input,
and (iii) any two keyed events whose keys resolve to the same slot land
in the same single bucket.  The hypothesis is the source's implicit
in-range invariant for `node_data_items[sinker_index]`. -/
theorem c5_redis_dispatch :
    ∀ (snm : Nat → String) (nsim : String → Nat) (n : Nat)
      (data : List RedisEntry),
      (∀ e ∈ data, ∀ s0 srest, e.slots = s0 :: srest →
        nsim (snm s0) < n) →
      ((∃ e ∈ data, ∃ s₁ ∈ e.slots, ∃ s₂ ∈ e.slots, s₁ ≠ s₂) →
          ∃ msg, RedisParallelizer.sink_raw_dispatch snm nsim n data =
            .error (.redisCmdError msg)) ∧
      (∀ buckets,
        RedisParallelizer.sink_raw_dispatch snm nsim n data =
          .ok buckets →
        buckets.length = n ∧
        (∀ e ∈ data, e.slots = [] → ∀ j, j < n →
          (buckets.getD j []).count e = data.count e) ∧
        (∀ e₁ ∈ data, ∀ e₂ ∈ data, ∀ s0 srest t0 trest,
          e₁.slots = s0 :: srest → e₂.slots = t0 :: trest → s0 = t0 →
          ∃ j, j < n ∧ e₁ ∈ buckets.getD j [] ∧ e₂ ∈ buckets.getD j [] ∧
            ∀ k, k < n → k ≠ j →
              e₁ ∉ buckets.getD k [] ∧ e₂ ∉ buckets.getD k [])) := by
  intro snm nsim n data hinr
  constructor
  · intro hmix
    exact dispatch_mixed_error snm nsim data (List.replicate n []) hmix
  · intro buckets hok
    have hnomix : ∀ e ∈ data, ∀ s₁ ∈ e.slots, ∀ s₂ ∈ e.slots, s₁ = s₂ := by
      intro e he s₁ h₁ s₂ h₂
      by_contra hne
      obtain ⟨msg, herr⟩ := dispatch_mixed_error snm nsim data
        (List.replicate n []) ⟨e, he, s₁, h₁, s₂, h₂, hne⟩
      unfold RedisParallelizer.sink_raw_dispatch at hok
      rw [herr] at hok
      exact Except.noConfusion hok
    obtain ⟨b2, hok2, hlen2, hchar⟩ := dispatch_loop_char snm nsim data
      (List.replicate n []) hnomix (by
        intro e he s0 srest hs
        rw [List.length_replicate]
        exact hinr e he s0 srest hs)
    have hb : b2 = buckets := by
      unfold RedisParallelizer.sink_raw_dispatch at hok
      rw [hok2] at hok
      injection hok
    subst hb
    have hlen : b2.length = n := by rw [hlen2, List.length_replicate]
    have hrep : ∀ j, (List.replicate n ([] : List RedisEntry)).getD j [] =
        [] := by
      intro j
      simp only [List.getD_eq_getElem?_getD, List.getElem?_replicate]
      split <;> rfl
    have hbucket : ∀ j, j < n → b2.getD j [] = data.filter (fun e =>
        match e.slots with
        | [] => true
        | s0 :: _ => nsim (snm s0) == j) := by
      intro j hj
      have hc := hchar j (by rw [List.length_replicate]; exact hj)
      rw [hrep j] at hc
      simpa using hc
    refine ⟨hlen, ?_, ?_⟩
    · intro e he hslots j hj
      rw [hbucket j hj]
      apply List.count_filter
      rw [hslots]
    · intro e₁ he₁ e₂ he₂ s0 srest t0 trest hs₁ hs₂ hst
      refine ⟨nsim (snm s0), hinr e₁ he₁ s0 srest hs₁, ?_, ?_, ?_⟩
      · rw [hbucket _ (hinr e₁ he₁ s0 srest hs₁)]
        rw [List.mem_filter]
        exact ⟨he₁, by simp [hs₁]⟩
      · rw [hbucket _ (hinr e₁ he₁ s0 srest hs₁)]
        rw [List.mem_filter]
        refine ⟨he₂, ?_⟩
        simp [hs₂, ← hst]
      · intro k hk hkne
        constructor
        · intro hmem
          rw [hbucket k hk] at hmem
          rw [List.mem_filter] at hmem
          have hp := hmem.2
          rw [hs₁] at hp
          have hs : nsim (snm s0) = k := by simpa using hp
          exact hkne hs.symm
        · intro hmem
          rw [hbucket k hk] at hmem
          rw [List.mem_filter] at hmem
          have hp := hmem.2
          rw [hs₂] at hp
          have ht : nsim (snm t0) = k := by simpa using hp
          rw [← hst] at ht
          exact hkne ht.symm

/-- Witness for C5 at a concrete batch over one sinker: the mixed-slot
command MSET over slots 5 and 6 fails the whole call with a
`RedisCmdError`. -/
theorem c5_redis_dispatch_witness :
    ∃ msg, RedisParallelizer.sink_raw_dispatch (fun _ => "n0")
        (fun _ => 0) 1 [⟨"SET", [5]⟩, ⟨"MSET", [5, 6]⟩] =
      .error (.redisCmdError msg) := by
  have h := (c5_redis_dispatch (fun _ => "n0") (fun _ => 0) 1
      [⟨"SET", [5]⟩, ⟨"MSET", [5, 6]⟩]
      (fun e _ s0 srest _ => Nat.zero_lt_one)).1
  exact h ⟨⟨"MSET", [5, 6]⟩, by simp, 5, by simp, 6, by simp, by decide⟩

/-- C6 (counterexample): with the empty quote-pair set, the `r#…#`
branch of `read_token` is never reached (the prefix test sits inside the
`for` over the escape pairs, lines 66-76), so a delimiter inside
`r#…#` does split; and after a quoted token the scanner skips the
character at `next_index` unconditionally (line 53) — in the second
input no delimiter occurs at all, yet two tokens come back and the char
b is dropped, so it is not true that "exactly one delimiter is consumed
between consecutive tokens". -/
theorem c6_tokenizer_counterexample :
    parse_tokens ['r', '#', 'a', '.', 'b', '#'] ['.'] [] =
      some [['r', '#', 'a'], ['b', '#']] ∧
    parse_tokens ['"', 'a', '"', 'b', 'c'] ['.'] [('"', '"')] =
      some [['"', 'a', '"'], ['c']] ∧
    ('.' ∉ ['"', 'a', '"', 'b', 'c']) := by
  refine ⟨by decide, by decide, by decide⟩

/-- C6 (amended): the tokenizer returns tokens in left-to-right order;
the empty input yields the empty list; every returned token is
trim-fixed (no leading or trailing whitespace); a token opening with a
configured quote extends through the matching closer inclusive —
delimiters inside do not split — and exactly one character after the
token (the delimiter, when one follows) is skipped, whether or not it is
a delimiter; an `r#…#` token is likewise opaque provided the quote-pair
set is non-empty (and its opener is not the letter r). -/
theorem c6_tokenizer_amended :
    (∀ (d : List Char) (p : List (Char × Char)),
      parse_tokens [] d p = some []) ∧
    (∀ (cfg d : List Char) (p : List (Char × Char))
      (toks : List (List Char)) (t : List Char),
      parse_tokens cfg d p = some toks → t ∈ toks → trimChars t = t) ∧
    (∀ (q₁ q₂ c₀ : Char) (body rest d : List Char), q₂ ∉ body →
      rest ≠ [] →
      parse_tokens (q₁ :: (body ++ q₂ :: c₀ :: rest)) d [(q₁, q₂)] =
        (parse_tokens rest d [(q₁, q₂)]).map
          (fun ts => trimChars (q₁ :: (body ++ [q₂])) :: ts)) ∧
    (∀ (q₁ q₂ c₀ : Char) (body rest d : List Char), q₁ ≠ 'r' →
      '#' ∉ body → rest ≠ [] →
      parse_tokens ('r' :: ('#' :: (body ++ '#' :: c₀ :: rest))) d
          [(q₁, q₂)] =
        (parse_tokens rest d [(q₁, q₂)]).map
          (fun ts => trimChars ('r' :: '#' :: (body ++ ['#'])) :: ts)) := by
  refine ⟨fun d p => rfl, ?_, parse_quoted, parse_regex⟩
  intro cfg d p toks t hp ht
  unfold parse_tokens at hp
  by_cases hc : cfg.isEmpty = true
  · rw [if_pos hc] at hp
    injection hp with hp
    rw [← hp] at ht
    exact absurd ht (List.not_mem_nil t)
  · rw [if_neg hc] at hp
    exact parse_go_tokens_trimmed (cfg.length + 1) cfg toks hp t ht

/-- Witness for C6 at a concrete quoted token: the input
"a." (quoted with double quotes) followed by a comma and b, with
delimiters period and comma. -/
theorem c6_tokenizer_amended_witness :
    parse_tokens ['"', 'a', '.', '"', ',', 'b'] ['.', ','] [('"', '"')] =
      (parse_tokens ['b'] ['.', ','] [('"', '"')]).map
        (fun ts => trimChars ('"' :: (['a', '.'] ++ ['"'])) :: ts) :=
  c6_tokenizer_amended.2.2.1 '"' '"' ',' ['a', '.'] ['b'] ['.', ',']
    (by decide) (by decide)
